import Mathlib

/-!
# baofit: BaoCorrelationModel

A shallow embedding of `src/baofit/BaoCorrelationModel.cc` and the properties of its
parameter schema and of its two `evaluate` overloads.

Conventions of the embedding.

* The two `evaluate` overloads are written for any type `K` of numbers with the operations
  `0`, `1`, `+`, `-`, `*`, `/` and a decidable equality, so that the same definition runs in
  exact arithmetic and in the arithmetic of a `double`.
* The theorems about exact arithmetic take `K` to be a field (no rounding, no NaN, no
  infinities; division is the total division of the field).
* `Binary64` is the arithmetic of a `double` on finite values: IEEE 754 binary64 with rounding
  to nearest, ties to even. It is used where a statement that holds in exact arithmetic fails
  in the code by rounding.
* `std::pow` comes from the C++ standard library; it is a parameter `pow : K → K → K`, and a
  theorem that needs a fact about it states that fact as a hypothesis.
* `params[i]` on a `std::vector<double>` is an unchecked read; it is modelled by `params[i]?`
  on a list, where `none` stands for the undefined behaviour of a read past the end.
* The five templates are objects that `evaluate` mutates through pointers, so `evaluate`
  passes a `World` along: the model object together with the trace of the calls made on the
  templates.
-/

namespace baofit

set_option autoImplicit false

/-! ## External collaborators -/

/-- Modelled from the spec: `cosmo::Multipole` is declared in the cosmo library, outside the
sources; the spec fixes the multipole orders 0, 2 and 4. -/
inductive Multipole
  | Monopole
  | Quadrupole
  | Hexadecapole
  deriving DecidableEq, Repr

/-- Modelled from the spec: `cosmo::RsdCorrelationFunction` is declared in the cosmo library,
outside the sources. The spec describes it as an object with one mutable distortion parameter
that can be queried at (radius, angle cosine) and at (radius, multipole order). The two
queries are fields of the object; each receives the distortion currently stored, so the model
covers a template whose multipole query ignores the distortion as well as one whose multipole
query responds to it. -/
structure RsdCorrelationFunction (K : Type) where
  /-- The distortion parameter currently stored in the object. -/
  distortion : K
  /-- The value of `operator()(r, mu)` as a function of the stored distortion, `r` and `mu`. -/
  atMu : K → K → K → K
  /-- The value of `operator()(r, multipole)` as a function of the stored distortion, `r` and
  the multipole. -/
  atMultipole : K → K → Multipole → K

/-- The method `setDistortion(beta)` of a template. -/
def RsdCorrelationFunction.setDistortion {K : Type} (t : RsdCorrelationFunction K) (beta : K) :
    RsdCorrelationFunction K :=
  { t with distortion := beta }

/-- A registered fit parameter: the four arguments of `defineParameter`. -/
structure Parameter (K : Type) where
  name : String
  value : K
  error : K
  fixed : Bool

/-- Modelled from the spec: the base class `AbsCorrelationModel` is not under the sources. The
spec describes it as the bookkeeping of an ordered, named list of parameters, each with a
default value, a default step and a fixed flag, in the order of registration. -/
structure AbsCorrelationModel (K : Type) where
  name : String
  parameters : List (Parameter K)

/-- Modelled from the spec: `defineParameter(name, value, error, fixed)` registers one more
parameter after those registered so far. -/
def AbsCorrelationModel.defineParameter {K : Type} (self : AbsCorrelationModel K)
    (name : String) (value error : K) (fixed : Bool) : AbsCorrelationModel K :=
  { self with parameters := self.parameters ++ [⟨name, value, error, fixed⟩] }

/-! ## The model object -/

/-- The data members of `BaoCorrelationModel`: the base class, `_zref` and the five
templates `_fid`, `_nw`, `_bbc`, `_bb1`, `_bb2`. -/
structure BaoCorrelationModel (K : Type) extends AbsCorrelationModel K where
  zref : K
  fid : RsdCorrelationFunction K
  nw : RsdCorrelationFunction K
  bbc : RsdCorrelationFunction K
  bb1 : RsdCorrelationFunction K
  bb2 : RsdCorrelationFunction K

/-- The five template members of the model. -/
inductive TemplateId
  | fid
  | nw
  | bbc
  | bb1
  | bb2
  deriving DecidableEq, Repr

/-- The template a member name stands for. -/
def BaoCorrelationModel.template {K : Type} (m : BaoCorrelationModel K) :
    TemplateId → RsdCorrelationFunction K
  | .fid => m.fid
  | .nw => m.nw
  | .bbc => m.bbc
  | .bb1 => m.bb1
  | .bb2 => m.bb2

/-- Replace the template a member name stands for. -/
def BaoCorrelationModel.setTemplate {K : Type} (m : BaoCorrelationModel K) (t : TemplateId)
    (f : RsdCorrelationFunction K) : BaoCorrelationModel K :=
  match t with
  | .fid => { m with fid := f }
  | .nw => { m with nw := f }
  | .bbc => { m with bbc := f }
  | .bb1 => { m with bb1 := f }
  | .bb2 => { m with bb2 := f }

/-- One call made on a template. -/
inductive Call (K : Type)
  | setDistortion (t : TemplateId) (beta : K)
  | atMu (t : TemplateId) (r mu : K)
  | atMultipole (t : TemplateId) (r : K) (multipole : Multipole)
  deriving DecidableEq

/-- The state `evaluate` runs in: the model object and the calls made on its templates so
far, oldest first. -/
structure World (K : Type) where
  model : BaoCorrelationModel K
  trace : List (Call K)

/-- The statement `_t->setDistortion(beta)`. -/
def World.setDistortion {K : Type} (w : World K) (t : TemplateId) (beta : K) : World K :=
  { model := w.model.setTemplate t ((w.model.template t).setDistortion beta)
    trace := w.trace ++ [Call.setDistortion t beta] }

/-- The expression `(*_t)(r, mu)`: the value returned and the state after the call. -/
def World.atMu {K : Type} (w : World K) (t : TemplateId) (r mu : K) : K × World K :=
  ((w.model.template t).atMu (w.model.template t).distortion r mu,
    { w with trace := w.trace ++ [Call.atMu t r mu] })

/-- The expression `(*_t)(r, multipole)`: the value returned and the state after the call. -/
def World.atMultipole {K : Type} (w : World K) (t : TemplateId) (r : K)
    (multipole : Multipole) : K × World K :=
  ((w.model.template t).atMultipole (w.model.template t).distortion r multipole,
    { w with trace := w.trace ++ [Call.atMultipole t r multipole] })

/-! ## The two `evaluate` overloads

Both are written for any arithmetic on `K`. Both return `none` when a read of `params` is out
of range, which is undefined behaviour in the code (`none` is not an error that the code
raises), and otherwise the value returned together with the state after the call. -/

/-- The method `evaluate(double r, double mu, double z, params)`, lines 80 to 107. -/
def evaluate {K : Type} [Zero K] [One K] [Add K] [Sub K] [Mul K] [Div K] [DecidableEq K]
    (pow : K → K → K) (w : World K)
    (r mu z : K) (params : List K) : Option (K × World K) :=
  -- The nine reads `params[0]` to `params[8]` of lines 82 and 84.
  match params[0]?, params[1]?, params[2]?, params[3]?, params[4]?,
    params[5]?, params[6]?, params[7]?, params[8]? with
  | some alpha, some beta, some bb, some ampl, some scale,
    some xio, some a0, some a1, some a2 =>
    let bias := bb / (1 + beta)
    -- Calculate redshift evolution factor.
    let zfactor := pow ((1 + z) / (1 + w.model.zref)) alpha
    -- Apply redshift-space distortion to each model component.
    let w := w.setDistortion .fid beta
    let w := w.setDistortion .nw beta
    let w := w.setDistortion .bbc beta
    let w := w.setDistortion .bb1 beta
    let w := w.setDistortion .bb2 beta
    -- Calculate the peak contribution with scaled radius.
    let peak : K := 0
    let (peak, w) :=
      if ampl ≠ 0 then
        let (fid, w) := w.atMu .fid (r * scale) mu
        let (nw, w) := w.atMu .nw (r * scale) mu
        (ampl * (fid - nw), w)
      else (peak, w)
    -- Calculate the additional broadband contribution with no radius scaling.
    let broadband : K := 0
    let (broadband, w) :=
      if xio ≠ 0 then
        let (v, w) := w.atMu .bbc r mu
        (broadband + xio * v, w)
      else (broadband, w)
    let (broadband, w) :=
      if 1 + a0 ≠ 0 then
        let (v, w) := w.atMu .nw r mu
        (broadband + (1 + a0) * v, w)
      else (broadband, w)
    let (broadband, w) :=
      if a1 ≠ 0 then
        let (v, w) := w.atMu .bb1 r mu
        (broadband + a1 * v, w)
      else (broadband, w)
    let (broadband, w) :=
      if a2 ≠ 0 then
        let (v, w) := w.atMu .bb2 r mu
        (broadband + a2 * v, w)
      else (broadband, w)
    -- Combine the peak and broadband components, with bias and redshift evolution.
    some (bias * bias * zfactor * (peak + broadband), w)
  | _, _, _, _, _, _, _, _, _ => none

/-- The method `evaluate(double r, cosmo::Multipole multipole, double z, params)`, lines 109
to 133. -/
def evaluateMultipole {K : Type} [Zero K] [One K] [Add K] [Sub K] [Mul K] [Div K]
    [DecidableEq K] (pow : K → K → K) (w : World K)
    (r : K) (multipole : Multipole) (z : K) (params : List K) : Option (K × World K) :=
  -- The nine reads `params[0]` to `params[8]` of lines 111 and 113.
  match params[0]?, params[1]?, params[2]?, params[3]?, params[4]?,
    params[5]?, params[6]?, params[7]?, params[8]? with
  | some alpha, some beta, some bb, some ampl, some scale,
    some xio, some a0, some a1, some a2 =>
    let bias := bb / (1 + beta)
    -- Calculate redshift evolution factor.
    let zfactor := pow ((1 + z) / (1 + w.model.zref)) alpha
    -- No distortion is applied to the model components here.
    -- Calculate the peak contribution with scaled radius.
    let peak : K := 0
    let (peak, w) :=
      if ampl ≠ 0 then
        let (fid, w) := w.atMultipole .fid (r * scale) multipole
        let (nw, w) := w.atMultipole .nw (r * scale) multipole
        (ampl * (fid - nw), w)
      else (peak, w)
    -- Calculate the additional broadband contribution with no radius scaling.
    let broadband : K := 0
    let (broadband, w) :=
      if xio ≠ 0 then
        let (v, w) := w.atMultipole .bbc r multipole
        (broadband + xio * v, w)
      else (broadband, w)
    let (broadband, w) :=
      if 1 + a0 ≠ 0 then
        let (v, w) := w.atMultipole .nw r multipole
        (broadband + (1 + a0) * v, w)
      else (broadband, w)
    let (broadband, w) :=
      if a1 ≠ 0 then
        let (v, w) := w.atMultipole .bb1 r multipole
        (broadband + a1 * v, w)
      else (broadband, w)
    let (broadband, w) :=
      if a2 ≠ 0 then
        let (v, w) := w.atMultipole .bb2 r multipole
        (broadband + a2 * v, w)
      else (broadband, w)
    -- Combine the peak and broadband components, with bias and redshift evolution.
    some (bias * bias * zfactor * (peak + broadband), w)
  | _, _, _, _, _, _, _, _, _ => none


/-! ## The constructor -/

/-- The base-class initialiser and the nine `defineParameter` calls of the constructor, lines
21 to 33: the parameters registered, in the order of the calls. -/
def BaoCorrelationModel.defineParameters {K : Type} [Field K] (initialAmp initialScale : K)
    (fixAlpha fixBeta fixBias fixBao fixScale noBBand : Bool) : AbsCorrelationModel K :=
  let base : AbsCorrelationModel K := ⟨"BAO", []⟩
  -- Define our parameters. The order here determines the order of elements in our
  -- parameter vector for our evaluate(...) methods.
  let base := base.defineParameter "alpha" 3.8 0.3 fixAlpha
  let base := base.defineParameter "beta" 1.0 0.1 fixBeta
  let base := base.defineParameter "(1+beta)*bias" (-0.34) 0.03 fixBias
  let base := base.defineParameter "BAO amplitude" initialAmp 0.15 fixBao
  let base := base.defineParameter "BAO scale" initialScale 0.02 (fixBao || fixScale)
  let base := base.defineParameter "BBand xio" 0 0.001 noBBand
  let base := base.defineParameter "BBand a0" (-2.5) 0.2 noBBand
  let base := base.defineParameter "BBand a1" (-1.8) 2 noBBand
  let base := base.defineParameter "BBand a2" 0 2 noBBand
  base

/-- The `root` of the file names, lines 35 and 36: `modelrootName`, with a `'/'` appended
when it is not empty and its last character is not `'/'`. A `std::string` is taken as its
sequence of characters. -/
def BaoCorrelationModel.root (modelrootName : String) : String :=
  let root := modelrootName
  if 0 < root.length ∧ root.data[root.length - 1]? ≠ some '/' then root.push '/' else root

/-- The format `"%s%s.%d.dat"` applied to a root, a name and a multipole order. -/
def BaoCorrelationModel.fileName (root name : String) (order : Nat) : String :=
  root ++ name ++ "." ++ toString order ++ ".dat"

/-- The format `"%s%s%c.%d.dat"` applied to a root, a name, a character and a multipole
order. -/
def BaoCorrelationModel.bbandName (root name : String) (c : Char) (order : Nat) : String :=
  (root ++ name).push c ++ "." ++ toString order ++ ".dat"

/-- The constructor, lines 17 to 76. `likely::createInterpolator`, `likely::createFunctionPtr`
and the constructor of `cosmo::RsdCorrelationFunction` are declared in the likely and cosmo
libraries, outside the sources; they are the parameters `createInterpolator` (`none` when the
file cannot be loaded, in which case the constructor does not complete), `createFunctionPtr`
and `newRsd`. The local `load file` stands for
`createFunctionPtr(createInterpolator(file, method))`. -/
def BaoCorrelationModel.new {K I F : Type} [Field K]
    (createInterpolator : String → String → Option I) (createFunctionPtr : I → F)
    (newRsd : F → F → F → RsdCorrelationFunction K)
    (modelrootName fiducialName nowigglesName broadbandName : String)
    (zref initialAmp initialScale : K)
    (fixAlpha fixBeta fixBias fixBao fixScale noBBand : Bool) :
    Option (BaoCorrelationModel K) :=
  let base := BaoCorrelationModel.defineParameters initialAmp initialScale
    fixAlpha fixBeta fixBias fixBao fixScale noBBand
  -- Load the interpolation data we will use for each multipole of each model.
  let root := BaoCorrelationModel.root modelrootName
  let fileName := BaoCorrelationModel.fileName
  let bbandName := BaoCorrelationModel.bbandName
  let method := "cspline"
  let load := fun (file : String) => (createInterpolator file method).map createFunctionPtr
  match load (fileName root fiducialName 0),
    load (fileName root fiducialName 2),
    load (fileName root fiducialName 4),
    load (fileName root nowigglesName 0),
    load (fileName root nowigglesName 2),
    load (fileName root nowigglesName 4),
    load (bbandName root broadbandName 'c' 0),
    load (bbandName root broadbandName 'c' 2),
    load (bbandName root broadbandName 'c' 4),
    load (bbandName root broadbandName '1' 0),
    load (bbandName root broadbandName '1' 2),
    load (bbandName root broadbandName '1' 4),
    load (bbandName root broadbandName '2' 0),
    load (bbandName root broadbandName '2' 2),
    load (bbandName root broadbandName '2' 4) with
  | some fid0, some fid2, some fid4, some nw0, some nw2, some nw4,
    some bbc0, some bbc2, some bbc4, some bb10, some bb12, some bb14,
    some bb20, some bb22, some bb24 =>
    -- Create redshift-space distorted correlation function models from the multipole
    -- interpolators.
    some
      { toAbsCorrelationModel := base
        zref := zref
        fid := newRsd fid0 fid2 fid4
        nw := newRsd nw0 nw2 nw4
        bbc := newRsd bbc0 bbc2 bbc4
        bb1 := newRsd bb10 bb12 bb14
        bb2 := newRsd bb20 bb22 bb24 }
  | _, _, _, _, _, _, _, _, _, _, _, _, _, _, _ => none

/-! ## The combination rule in the words of the specification

The definitions of this section follow section 4.2 of the specification, not the code; the
theorems below compare the code with them. -/

/-- The model with the distortion of all five templates set to `beta` (step 4). -/
def BaoCorrelationModel.withDistortion {K : Type} (m : BaoCorrelationModel K) (beta : K) :
    BaoCorrelationModel K :=
  { m with
    fid := { m.fid with distortion := beta }
    nw := { m.nw with distortion := beta }
    bbc := { m.bbc with distortion := beta }
    bb1 := { m.bb1 with distortion := beta }
    bb2 := { m.bb2 with distortion := beta } }

/-- The peak term (step 5): `ampl * (fid(r*scale, mu) - nw(r*scale, mu))` if `ampl` is not
zero and 0 otherwise, the templates being read at distortion `beta`. -/
def specPeak {K : Type} [Field K] [DecidableEq K] (m : BaoCorrelationModel K)
    (beta r mu ampl scale : K) : K :=
  if ampl ≠ 0 then ampl * (m.fid.atMu beta (r * scale) mu - m.nw.atMu beta (r * scale) mu)
  else 0

/-- The broadband term (step 6): the sum of the four pieces whose coefficient is not zero,
the templates being read at distortion `beta`. -/
def specBroadband {K : Type} [Field K] [DecidableEq K] (m : BaoCorrelationModel K)
    (beta r mu xio a0 a1 a2 : K) : K :=
  (if xio ≠ 0 then xio * m.bbc.atMu beta r mu else 0)
    + (if 1 + a0 ≠ 0 then (1 + a0) * m.nw.atMu beta r mu else 0)
    + (if a1 ≠ 0 then a1 * m.bb1.atMu beta r mu else 0)
    + (if a2 ≠ 0 then a2 * m.bb2.atMu beta r mu else 0)

/-- The five `setDistortion` calls of step 4. -/
def distortionCalls {K : Type} (beta : K) : List (Call K) :=
  [Call.setDistortion .fid beta, Call.setDistortion .nw beta, Call.setDistortion .bbc beta,
    Call.setDistortion .bb1 beta, Call.setDistortion .bb2 beta]

/-- The template queries of the peak term (step 5). -/
def peakCalls {K : Type} [Field K] [DecidableEq K] (r mu ampl scale : K) : List (Call K) :=
  if ampl ≠ 0 then [Call.atMu .fid (r * scale) mu, Call.atMu .nw (r * scale) mu] else []

/-- The template queries of the broadband term (step 6). -/
def broadbandCalls {K : Type} [Field K] [DecidableEq K] (r mu xio a0 a1 a2 : K) :
    List (Call K) :=
  (if xio ≠ 0 then [Call.atMu .bbc r mu] else [])
    ++ (if 1 + a0 ≠ 0 then [Call.atMu .nw r mu] else [])
    ++ (if a1 ≠ 0 then [Call.atMu .bb1 r mu] else [])
    ++ (if a2 ≠ 0 then [Call.atMu .bb2 r mu] else [])

/-- The peak term of the multipole-based query (section 4.3), the templates being read at the
distortion they store. -/
def specPeakMultipole {K : Type} [Field K] [DecidableEq K] (m : BaoCorrelationModel K)
    (r : K) (multipole : Multipole) (ampl scale : K) : K :=
  if ampl ≠ 0 then
    ampl * (m.fid.atMultipole m.fid.distortion (r * scale) multipole
      - m.nw.atMultipole m.nw.distortion (r * scale) multipole)
  else 0

/-- The broadband term of the multipole-based query (section 4.3), the templates being read
at the distortion they store. -/
def specBroadbandMultipole {K : Type} [Field K] [DecidableEq K] (m : BaoCorrelationModel K)
    (r : K) (multipole : Multipole) (xio a0 a1 a2 : K) : K :=
  (if xio ≠ 0 then xio * m.bbc.atMultipole m.bbc.distortion r multipole else 0)
    + (if 1 + a0 ≠ 0 then (1 + a0) * m.nw.atMultipole m.nw.distortion r multipole else 0)
    + (if a1 ≠ 0 then a1 * m.bb1.atMultipole m.bb1.distortion r multipole else 0)
    + (if a2 ≠ 0 then a2 * m.bb2.atMultipole m.bb2.distortion r multipole else 0)

/-- The template queries of the multipole-based query, peak term first. -/
def multipoleCalls {K : Type} [Field K] [DecidableEq K] (r : K) (multipole : Multipole)
    (ampl scale xio a0 a1 a2 : K) : List (Call K) :=
  (if ampl ≠ 0 then
      [Call.atMultipole .fid (r * scale) multipole, Call.atMultipole .nw (r * scale) multipole]
    else [])
    ++ (if xio ≠ 0 then [Call.atMultipole .bbc r multipole] else [])
    ++ (if 1 + a0 ≠ 0 then [Call.atMultipole .nw r multipole] else [])
    ++ (if a1 ≠ 0 then [Call.atMultipole .bb1 r multipole] else [])
    ++ (if a2 ≠ 0 then [Call.atMultipole .bb2 r multipole] else [])

/-! ## Concrete instances

Used to evaluate the definitions on concrete inputs. -/

/-- A template that returns the constant `c` at every query. -/
def stubTemplate {K : Type} [Zero K] (c : K) : RsdCorrelationFunction K :=
  { distortion := 0, atMu := fun _ _ _ => c, atMultipole := fun _ _ _ => c }

/-- The model of the concrete scenario of section 8 of the specification: fiducial 2.0,
no-wiggle 1.0, broadband-c 0.5, broadband-1 0.3, broadband-2 0.1 at every query. -/
def stubModel {K : Type} [Field K] (zref : K) : BaoCorrelationModel K :=
  { toAbsCorrelationModel := BaoCorrelationModel.defineParameters 1 1
      false false false false false false
    zref := zref
    fid := stubTemplate 2.0
    nw := stubTemplate 1.0
    bbc := stubTemplate 0.5
    bb1 := stubTemplate 0.3
    bb2 := stubTemplate 0.1 }

/-- The model that the constructor builds for the root `"models"` and the names `"fid"`,
`"nw"` and `"bb"`, with `zref = 1/2`, `initialAmp = 1`, `initialScale = 1` and the flags
`fixAlpha` and `fixScale` set, when every file loads as the constant 1 and a template answers
every query with the value of its first multipole function. -/
def exampleModel : BaoCorrelationModel ℚ :=
  { toAbsCorrelationModel := BaoCorrelationModel.defineParameters 1 1
      true false false false true false
    zref := 1 / 2
    fid := stubTemplate 1
    nw := stubTemplate 1
    bbc := stubTemplate 1
    bb1 := stubTemplate 1
    bb2 := stubTemplate 1 }

/-- A loader that knows the fifteen files of the root `"models/"` for the names `"fid"`, `"nw"`
and `"bb"` with the method `"cspline"`, each as the constant 1, and no other file. -/
def exampleLoader (file method : String) : Option ℚ :=
  if method = "cspline" ∧ file ∈
      ["models/fid.0.dat", "models/fid.2.dat", "models/fid.4.dat",
        "models/nw.0.dat", "models/nw.2.dat", "models/nw.4.dat",
        "models/bbc.0.dat", "models/bbc.2.dat", "models/bbc.4.dat",
        "models/bb1.0.dat", "models/bb1.2.dat", "models/bb1.4.dat",
        "models/bb2.0.dat", "models/bb2.2.dat", "models/bb2.4.dat"] then some 1
  else none

/-- The power function on the rationals for the integer part of the exponent; it agrees with
`std::pow` at every integer exponent at which `std::pow` is finite. -/
def powInt (x a : ℚ) : ℚ := x ^ ⌊a⌋

/-! ## The arithmetic of a `double`

The finite values of IEEE 754 binary64 and its four operations with rounding to nearest, ties
to even. A value is `m * 2^e` with `m` odd, or zero. Infinities and NaN are not values of the
model: it is faithful where no operation overflows or divides by zero. -/

/-- The numerator and the denominator of `n/d * 2^s`. -/
def scale2 (n d : ℕ) (s : ℤ) : ℕ × ℕ :=
  if 0 ≤ s then (n * 2 ^ s.toNat, d) else (n, d * 2 ^ (-s).toNat)

/-- The number of times `n` can be halved before it is less than 2, with `fuel` as the bound
on the number of halvings. -/
def halvings : ℕ → ℕ → ℕ
  | 0, _ => 0
  | fuel + 1, n => if n < 2 then 0 else halvings fuel (n / 2) + 1

/-- The position of the leading bit of `n`: the `k` with `2^k ≤ n < 2^(k+1)`, for `n > 0`. -/
def leadingBit (n : ℕ) : ℕ := halvings n n

/-- The number of binary places kept for the positive fraction `n/d`: the `s` for which
`n/d * 2^s` lies in `[2^52, 2^53)`, so that 53 significant bits are kept, and at most 1074,
the places of a subnormal. -/
def places64 (n d : ℕ) : ℤ :=
  let s0 : ℤ := 52 - ((leadingBit n : ℤ) - (leadingBit d : ℤ))
  let p := scale2 n d s0
  let s := if p.1 < 2 ^ 52 * p.2 then s0 + 1 else s0
  min s 1074

/-- A finite binary64 value `m * 2^e`, with `m` odd, or `m = 0` and `e = 0`. -/
structure Binary64 where
  m : ℤ
  e : ℤ
  deriving DecidableEq

/-- The binary64 value nearest to `sign * n/d`, ties to even (`sign` is 1 or -1). -/
def round64 (sign : ℤ) (n d : ℕ) : Binary64 :=
  if n = 0 then ⟨0, 0⟩
  else
    let s := places64 n d
    let p := scale2 n d s
    let q := p.1 / p.2
    let r := p.1 % p.2
    let k := if 2 * r < p.2 then q else if p.2 < 2 * r then q + 1
      else if q % 2 = 0 then q else q + 1
    if k = 0 then ⟨0, 0⟩
    else
      -- the largest power of two that divides `k`, which is at most `2^53`
      let g := Nat.gcd k (2 ^ 53)
      ⟨sign * (k / g : ℕ), (leadingBit g : ℤ) - s⟩

/-- The sum, rounded. -/
def Binary64.add (a b : Binary64) : Binary64 :=
  let e := min a.e b.e
  let t := a.m * 2 ^ (a.e - e).toNat + b.m * 2 ^ (b.e - e).toNat
  let p := scale2 t.natAbs 1 e
  round64 t.sign p.1 p.2

/-- The negation, which is exact. -/
def Binary64.neg (a : Binary64) : Binary64 := ⟨-a.m, a.e⟩

/-- The product, rounded. -/
def Binary64.mul (a b : Binary64) : Binary64 :=
  let p := scale2 (a.m * b.m).natAbs 1 (a.e + b.e)
  round64 (a.m * b.m).sign p.1 p.2

/-- The quotient, rounded. -/
def Binary64.div (a b : Binary64) : Binary64 :=
  let x := scale2 a.m.natAbs 1 a.e
  let y := scale2 b.m.natAbs 1 b.e
  round64 (a.m.sign * b.m.sign) (x.1 * y.2) (x.2 * y.1)

instance : Zero Binary64 := ⟨⟨0, 0⟩⟩

instance : One Binary64 := ⟨⟨1, 0⟩⟩

instance : Add Binary64 := ⟨Binary64.add⟩

instance : Neg Binary64 := ⟨Binary64.neg⟩

instance : Sub Binary64 := ⟨fun a b => Binary64.add a (Binary64.neg b)⟩

instance : Mul Binary64 := ⟨Binary64.mul⟩

instance : Div Binary64 := ⟨Binary64.div⟩

/-- A decimal literal denotes the binary64 value nearest to it. -/
instance : OfScientific Binary64 :=
  ⟨fun mantissa exponentSign decimalExponent =>
    if exponentSign then round64 1 mantissa (10 ^ decimalExponent)
    else round64 1 (mantissa * 10 ^ decimalExponent) 1⟩

/-- The values of `std::pow` at the exponents 0 and 1, where it is exact: `pow(x, 0) = 1`
and `pow(x, 1) = x`. No other exponent is used; the value there is 1. -/
def pow01 (x a : Binary64) : Binary64 := if a = 0 then 1 else if a = 1 then x else 1

/-- A model over binary64 whose templates return the given constants at every query; the
registered parameters, which `evaluate` does not read, are left out. -/
def constantModel64 (zref fid nw bbc bb1 bb2 : Binary64) : BaoCorrelationModel Binary64 :=
  { toAbsCorrelationModel := ⟨"BAO", []⟩
    zref := zref
    fid := stubTemplate fid
    nw := stubTemplate nw
    bbc := stubTemplate bbc
    bb1 := stubTemplate bb1
    bb2 := stubTemplate bb2 }

/-- The model of the concrete scenario of section 8 of the specification over binary64:
fiducial 2.0, no-wiggle 1.0, broadband-c 0.5, broadband-1 0.3, broadband-2 0.1. -/
def stubModel64 (zref : Binary64) : BaoCorrelationModel Binary64 :=
  constantModel64 zref 2.0 1.0 0.5 0.3 0.1

/-! ## The code against the combination rule -/

section schema

variable {K : Type} [Field K]

/-- The parameters that the registration block of the constructor leaves in the base class. -/
theorem defineParameters_parameters (initialAmp initialScale : K)
    (fixAlpha fixBeta fixBias fixBao fixScale noBBand : Bool) :
    (BaoCorrelationModel.defineParameters initialAmp initialScale
        fixAlpha fixBeta fixBias fixBao fixScale noBBand).parameters =
      [⟨"alpha", 3.8, 0.3, fixAlpha⟩, ⟨"beta", 1.0, 0.1, fixBeta⟩,
        ⟨"(1+beta)*bias", -0.34, 0.03, fixBias⟩, ⟨"BAO amplitude", initialAmp, 0.15, fixBao⟩,
        ⟨"BAO scale", initialScale, 0.02, fixBao || fixScale⟩,
        ⟨"BBand xio", 0, 0.001, noBBand⟩, ⟨"BBand a0", -2.5, 0.2, noBBand⟩,
        ⟨"BBand a1", -1.8, 2, noBBand⟩, ⟨"BBand a2", 0, 2, noBBand⟩] := by
  rfl

/-- A model that the constructor completes has the base class that the registration block
built. -/
theorem new_toAbsCorrelationModel {I F : Type}
    (createInterpolator : String → String → Option I) (createFunctionPtr : I → F)
    (newRsd : F → F → F → RsdCorrelationFunction K)
    (modelrootName fiducialName nowigglesName broadbandName : String)
    (zref initialAmp initialScale : K)
    (fixAlpha fixBeta fixBias fixBao fixScale noBBand : Bool) (m : BaoCorrelationModel K)
    (hm : BaoCorrelationModel.new createInterpolator createFunctionPtr newRsd modelrootName
      fiducialName nowigglesName broadbandName zref initialAmp initialScale
      fixAlpha fixBeta fixBias fixBao fixScale noBBand = some m) :
    m.toAbsCorrelationModel = BaoCorrelationModel.defineParameters initialAmp initialScale
      fixAlpha fixBeta fixBias fixBao fixScale noBBand := by
  unfold BaoCorrelationModel.new at hm
  simp only at hm
  split at hm
  · simp only [Option.some.injEq] at hm
    rw [← hm]
  · simp at hm

end schema

section strings

/-- Appending a character is appending the string of that character. -/
theorem push_eq_append (s : String) (c : Char) : s.push c = s ++ String.singleton c := by
  apply String.ext
  simp [String.data_push, String.data_append, String.singleton]

/-- The test of line 36, in terms of the last character of the name. -/
theorem root_test_iff (s : String) :
    (0 < s.length ∧ s.data[s.length - 1]? ≠ some '/') ↔
      ¬ (s = "" ∨ s.data.getLast? = some '/') := by
  rw [List.getLast?_eq_getElem?]
  have hlen : s.length = s.data.length := rfl
  have hempty : s = "" ↔ s.data.length = 0 := by
    constructor
    · rintro rfl
      rfl
    · intro h
      apply String.ext
      exact List.length_eq_zero.mp h
  rw [hempty, hlen]
  constructor
  · rintro ⟨h1, h2⟩ (h | h)
    · omega
    · exact h2 h
  · intro h
    push_neg at h
    exact ⟨by omega, h.2⟩

/-- A name that is empty or ends in `'/'` is its own root. -/
theorem root_of_terminated (s : String) (h : s = "" ∨ s.data.getLast? = some '/') :
    BaoCorrelationModel.root s = s := by
  unfold BaoCorrelationModel.root
  simp only
  rw [if_neg]
  rw [root_test_iff]
  exact fun hn => hn h

/-- A name that is not empty and does not end in `'/'` gets one `'/'` appended. -/
theorem root_of_not_terminated (s : String) (h : ¬ (s = "" ∨ s.data.getLast? = some '/')) :
    BaoCorrelationModel.root s = s ++ "/" := by
  have hpush : s.push '/' = s ++ "/" := by
    apply String.ext
    simp [String.data_push, String.data_append]
  unfold BaoCorrelationModel.root
  simp only
  rw [if_pos ((root_test_iff s).mpr h), hpush]

/-- A root is empty or ends in `'/'`. -/
theorem root_terminated (s : String) :
    BaoCorrelationModel.root s = "" ∨ (BaoCorrelationModel.root s).data.getLast? = some '/' := by
  by_cases h : s = "" ∨ s.data.getLast? = some '/'
  · rw [root_of_terminated s h]
    exact h
  · right
    rw [root_of_not_terminated s h, String.data_append]
    exact List.getLast?_concat _

end strings

section lemmas

variable {K : Type} [Field K] [DecidableEq K]

/-- On a vector of nine entries the angle-based `evaluate` returns the value of the
combination rule, leaves every template with distortion `beta` and makes the calls of steps 4,
5 and 6, in that order. -/
theorem evaluate_eq (pow : K → K → K) (w : World K)
    (r mu z alpha beta bb ampl scale xio a0 a1 a2 : K) :
    evaluate pow w r mu z [alpha, beta, bb, ampl, scale, xio, a0, a1, a2] =
      some (bb / (1 + beta) * (bb / (1 + beta)) * pow ((1 + z) / (1 + w.model.zref)) alpha *
          (specPeak w.model beta r mu ampl scale
            + specBroadband w.model beta r mu xio a0 a1 a2),
        { model := w.model.withDistortion beta
          trace := w.trace ++ distortionCalls beta ++ peakCalls r mu ampl scale
            ++ broadbandCalls r mu xio a0 a1 a2 }) := by
  by_cases h3 : ampl = 0 <;> by_cases h5 : xio = 0 <;> by_cases h6 : 1 + a0 = 0 <;>
    by_cases h7 : a1 = 0 <;> by_cases h8 : a2 = 0 <;>
    simp [evaluate, World.setDistortion, World.atMu, BaoCorrelationModel.template,
      BaoCorrelationModel.setTemplate, RsdCorrelationFunction.setDistortion,
      BaoCorrelationModel.withDistortion, specPeak, specBroadband, distortionCalls,
      peakCalls, broadbandCalls, h3, h5, h6, h7, h8]

/-- On a vector of nine entries the multipole-based `evaluate` returns the value of the
combination rule at the requested multipole, leaves the model as it was and makes only
template queries. -/
theorem evaluateMultipole_eq (pow : K → K → K) (w : World K) (r : K) (multipole : Multipole)
    (z alpha beta bb ampl scale xio a0 a1 a2 : K) :
    evaluateMultipole pow w r multipole z [alpha, beta, bb, ampl, scale, xio, a0, a1, a2] =
      some (bb / (1 + beta) * (bb / (1 + beta)) * pow ((1 + z) / (1 + w.model.zref)) alpha *
          (specPeakMultipole w.model r multipole ampl scale
            + specBroadbandMultipole w.model r multipole xio a0 a1 a2),
        { model := w.model
          trace := w.trace ++ multipoleCalls r multipole ampl scale xio a0 a1 a2 }) := by
  by_cases h3 : ampl = 0 <;> by_cases h5 : xio = 0 <;> by_cases h6 : 1 + a0 = 0 <;>
    by_cases h7 : a1 = 0 <;> by_cases h8 : a2 = 0 <;>
    simp [evaluateMultipole, World.atMultipole, BaoCorrelationModel.template,
      specPeakMultipole, specBroadbandMultipole, multipoleCalls, h3, h5, h6, h7, h8]

/-- The peak term without the test against zero. -/
theorem specPeak_eq (m : BaoCorrelationModel K) (beta r mu ampl scale : K) :
    specPeak m beta r mu ampl scale =
      ampl * (m.fid.atMu beta (r * scale) mu - m.nw.atMu beta (r * scale) mu) := by
  by_cases h : ampl = 0 <;> simp [specPeak, h]

/-- The broadband term without the tests against zero. -/
theorem specBroadband_eq (m : BaoCorrelationModel K) (beta r mu xio a0 a1 a2 : K) :
    specBroadband m beta r mu xio a0 a1 a2 =
      xio * m.bbc.atMu beta r mu + (1 + a0) * m.nw.atMu beta r mu
        + a1 * m.bb1.atMu beta r mu + a2 * m.bb2.atMu beta r mu := by
  by_cases h5 : xio = 0 <;> by_cases h6 : 1 + a0 = 0 <;> by_cases h7 : a1 = 0 <;>
    by_cases h8 : a2 = 0 <;> simp [specBroadband, h5, h6, h7, h8]

/-- The peak term of the multipole-based query without the test against zero. -/
theorem specPeakMultipole_eq (m : BaoCorrelationModel K) (r : K) (multipole : Multipole)
    (ampl scale : K) :
    specPeakMultipole m r multipole ampl scale =
      ampl * (m.fid.atMultipole m.fid.distortion (r * scale) multipole
        - m.nw.atMultipole m.nw.distortion (r * scale) multipole) := by
  by_cases h : ampl = 0 <;> simp [specPeakMultipole, h]

/-- The broadband term of the multipole-based query without the tests against zero. -/
theorem specBroadbandMultipole_eq (m : BaoCorrelationModel K) (r : K) (multipole : Multipole)
    (xio a0 a1 a2 : K) :
    specBroadbandMultipole m r multipole xio a0 a1 a2 =
      xio * m.bbc.atMultipole m.bbc.distortion r multipole
        + (1 + a0) * m.nw.atMultipole m.nw.distortion r multipole
        + a1 * m.bb1.atMultipole m.bb1.distortion r multipole
        + a2 * m.bb2.atMultipole m.bb2.distortion r multipole := by
  by_cases h5 : xio = 0 <;> by_cases h6 : 1 + a0 = 0 <;> by_cases h7 : a1 = 0 <;>
    by_cases h8 : a2 = 0 <;> simp [specBroadbandMultipole, h5, h6, h7, h8]

/-- On a vector of fewer than nine entries the angle-based `evaluate` reads out of range. -/
theorem evaluate_short (pow : K → K → K) (w : World K) (r mu z : K) (params : List K)
    (h : params.length < 9) : evaluate pow w r mu z params = none := by
  have h8 : params[8]? = none := List.getElem?_eq_none (by omega)
  unfold evaluate
  split
  · rename_i heq
    rw [h8] at heq
    exact absurd heq (by simp)
  · rfl

/-- On a vector of fewer than nine entries the multipole-based `evaluate` reads out of
range. -/
theorem evaluateMultipole_short (pow : K → K → K) (w : World K) (r : K)
    (multipole : Multipole) (z : K) (params : List K) (h : params.length < 9) :
    evaluateMultipole pow w r multipole z params = none := by
  have h8 : params[8]? = none := List.getElem?_eq_none (by omega)
  unfold evaluateMultipole
  split
  · rename_i heq
    rw [h8] at heq
    exact absurd heq (by simp)
  · rfl

/-- The power `powInt` of 1 is 1 at every exponent. -/
theorem powInt_one (a : ℚ) : powInt 1 a = 1 := by
  simp [powInt]

/-- The power `powInt` at exponent 0 is 1 at every base. -/
theorem powInt_zero (x : ℚ) : powInt x 0 = 1 := by
  simp [powInt]

end lemmas

section binary64

/-- The rounding of binary64 on known values: the literals 0.1 and 2.9, the sum 0.1 + 0.2,
the quotient 1/3, and a tie, which goes to the even neighbour. -/
theorem binary64_known_values :
    (0.1 : Binary64) = ⟨3602879701896397, -55⟩
    ∧ (2.9 : Binary64) = ⟨6530219459687219, -51⟩
    ∧ (0.1 : Binary64) + 0.2 = 0.30000000000000004
    ∧ (1 : Binary64) / 3.0 = 0.3333333333333333
    ∧ (1 : Binary64) + ⟨1, -53⟩ = 1
    ∧ (1 : Binary64) + ⟨3, -53⟩ = ⟨2251799813685249, -51⟩ := by
  decide

set_option maxRecDepth 100000 in
/-- In binary64 the concrete scenario returns 2.9000000000000004 for every `r`, `mu`, `zref`
and trace, given that `pow x 0 = 1` for every `x`. -/
theorem evaluate_stubModel64 (pow : Binary64 → Binary64 → Binary64) (hpow : ∀ x, pow x 0 = 1)
    (zref r mu : Binary64) (trace : List (Call Binary64)) :
    (evaluate pow ⟨stubModel64 zref, trace⟩ r mu zref [0, 0, 1, 1, 1, 1, 0, 1, 1]).map
      Prod.fst = some 2.9000000000000004 := by
  have h1 : (1 : Binary64) ≠ 0 := by decide
  have h10 : (1 : Binary64) + 0 ≠ 0 := by decide
  have hv : (1 : Binary64) / (1 + 0) * (1 / (1 + 0)) * 1 *
      (1 * (2.0 - 1.0) + (0 + 1 * 0.5 + (1 + 0) * 1.0 + 1 * 0.3 + 1 * 0.1)) =
        2.9000000000000004 := by decide
  simp only [evaluate, World.setDistortion, World.atMu, BaoCorrelationModel.template,
    BaoCorrelationModel.setTemplate, RsdCorrelationFunction.setDistortion,
    stubModel64, constantModel64, stubTemplate, hpow, List.getElem?_cons_zero,
    List.getElem?_cons_succ, ne_eq, h1, h10, not_false_eq_true, if_true,
    Option.map_some']
  exact congrArg some hv

end binary64

/-! ## Properties of the two `evaluate` overloads -/

section properties

variable {K : Type} [Field K] [DecidableEq K]

/-- C1: for every 9-entry parameter vector `[alpha, beta, bb, ampl, scale, xio, a0, a1, a2]`
with `beta ≠ -1` and every `r`, `mu`, `z`, the angle-based `evaluate` returns
`bias^2 * zfactor * (peak + broadband)`, where `bias = bb/(1+beta)`,
`zfactor = pow ((1+z)/(1+zref)) alpha`, `peak = ampl*(fid(r*scale, mu) - nw(r*scale, mu))` if
`ampl ≠ 0` and 0 otherwise, and `broadband` is the sum of `xio*bbc(r, mu)` if `xio ≠ 0`,
`(1+a0)*nw(r, mu)` if `1+a0 ≠ 0`, `a1*bb1(r, mu)` if `a1 ≠ 0` and `a2*bb2(r, mu)` if `a2 ≠ 0`,
every template being read with its distortion set to `beta`. -/
theorem C1_evaluate_formula (pow : K → K → K) (w : World K)
    (r mu z alpha beta bb ampl scale xio a0 a1 a2 : K) (hbeta : beta ≠ -1) :
    (evaluate pow w r mu z [alpha, beta, bb, ampl, scale, xio, a0, a1, a2]).map Prod.fst =
      some (
        let bias := bb / (1 + beta)
        let zfactor := pow ((1 + z) / (1 + w.model.zref)) alpha
        let peak :=
          if ampl ≠ 0 then
            ampl * (w.model.fid.atMu beta (r * scale) mu - w.model.nw.atMu beta (r * scale) mu)
          else 0
        let broadband :=
          (if xio ≠ 0 then xio * w.model.bbc.atMu beta r mu else 0)
            + (if 1 + a0 ≠ 0 then (1 + a0) * w.model.nw.atMu beta r mu else 0)
            + (if a1 ≠ 0 then a1 * w.model.bb1.atMu beta r mu else 0)
            + (if a2 ≠ 0 then a2 * w.model.bb2.atMu beta r mu else 0)
        bias ^ 2 * zfactor * (peak + broadband)) := by
  have _ := hbeta
  rw [evaluate_eq]
  simp only [Option.map_some', specPeak, specBroadband, pow_two]

/-- C1, at a concrete input: the stub model with `zref = 0` at `r = 7`, `mu = 1/2`, `z = 1`
and the parameters `[2, 1/2, 3, 1, 1, 1, 0, 1, 1]`: `bias = 2`, `zfactor = 4`, `peak = 1`,
`broadband = 1.9`. -/
theorem C1_evaluate_formula_witness :
    (1 / 2 : ℚ) ≠ -1 ∧
    (evaluate powInt ⟨stubModel 0, []⟩ 7 (1/2) 1 [2, 1/2, 3, 1, 1, 1, 0, 1, 1]).map Prod.fst =
      some 46.4 :=
  ⟨by norm_num,
    (C1_evaluate_formula powInt ⟨stubModel 0, []⟩ 7 (1/2) 1 2 (1/2) 3 1 1 1 0 1 1
      (by norm_num)).trans (by norm_num [stubModel, stubTemplate, powInt])⟩

/-- C2, amended: with templates that return the constants fiducial 2.0, no-wiggle 1.0,
broadband-c 0.5, broadband-1 0.3 and broadband-2 0.1 at every query, the parameters
`[alpha=0, beta=0, combined_bias=1, amplitude=1, scale=1, xio=1, a0=0, a1=1, a2=1]` and
`z = zref`, the angle-based `evaluate` returns, for every `r` and `mu` (and every `zref`),
exactly 2.9 in exact arithmetic (`bias = 1`, `zfactor = 1`, `peak = 1.0`, `broadband = 1.9`)
and 2.9000000000000004 in binary64 arithmetic, given that `pow x 0 = 1` for every `x`, as
`std::pow` guarantees. -/
theorem C2_concrete_scenario [CharZero K] (pow : K → K → K) (hpow : ∀ x, pow x 0 = 1)
    (pow64 : Binary64 → Binary64 → Binary64) (hpow64 : ∀ x, pow64 x 0 = 1)
    (zref r mu : K) (trace : List (Call K)) :
    (evaluate pow ⟨stubModel zref, trace⟩ r mu zref [0, 0, 1, 1, 1, 1, 0, 1, 1]).map Prod.fst =
      some 2.9
    ∧ (1 : K) / (1 + 0) = 1
    ∧ pow ((1 + zref) / (1 + (stubModel zref).zref)) 0 = 1
    ∧ specPeak (stubModel zref) 0 r mu 1 1 = 1.0
    ∧ specBroadband (stubModel zref) 0 r mu 1 0 1 1 = 1.9
    ∧ (∀ (zref64 r64 mu64 : Binary64) (trace64 : List (Call Binary64)),
        (evaluate pow64 ⟨stubModel64 zref64, trace64⟩ r64 mu64 zref64
          [0, 0, 1, 1, 1, 1, 0, 1, 1]).map Prod.fst = some 2.9000000000000004) := by
  refine ⟨?_, by norm_num, hpow _, ?_, ?_, evaluate_stubModel64 pow64 hpow64⟩
  · rw [evaluate_eq]
    simp [specPeak, specBroadband, stubModel, stubTemplate, hpow]
    norm_num
  · simp [specPeak, stubModel, stubTemplate]
    norm_num
  · simp [specBroadband, stubModel, stubTemplate]
    norm_num

/-- C2 amended, at a concrete input: `r = 7`, `mu = 1/3`, `zref = 1/2` over the rationals,
and `r = 7`, `mu = 0.5`, `zref = 0.5` over binary64. -/
theorem C2_concrete_scenario_witness :
    (∀ x, powInt x 0 = 1) ∧ (∀ x, pow01 x 0 = 1)
    ∧ (evaluate powInt ⟨stubModel (1/2), []⟩ 7 (1/3) (1/2) [0, 0, 1, 1, 1, 1, 0, 1, 1]).map
      Prod.fst = some 2.9
    ∧ (evaluate pow01 ⟨stubModel64 0.5, []⟩ 7.0 0.5 0.5 [0, 0, 1, 1, 1, 1, 0, 1, 1]).map
      Prod.fst = some 2.9000000000000004 :=
  ⟨powInt_zero, fun _ => rfl,
    (C2_concrete_scenario powInt powInt_zero pow01 (fun _ => rfl) (1/2) 7 (1/3) []).1,
    (C2_concrete_scenario powInt powInt_zero pow01 (fun _ => rfl) (1/2) 7 (1/3) []).2.2.2.2.2
      0.5 7.0 0.5 []⟩

set_option maxRecDepth 100000 in
/-- C2 as stated fails in the binary64 arithmetic of the code: at `r = 7`, `mu = 0.5`,
`zref = z = 0.5` the value returned is 2.9000000000000004, which is not the `double` 2.9,
because the broadband sum `0.5 + 1.0 + 0.3 + 0.1` rounds to 1.9000000000000001. -/
theorem C2_binary64_counterexample :
    (evaluate pow01 ⟨stubModel64 0.5, []⟩ 7.0 0.5 0.5 [0, 0, 1, 1, 1, 1, 0, 1, 1]).map
        Prod.fst = some 2.9000000000000004
    ∧ (2.9000000000000004 : Binary64) ≠ 2.9
    ∧ (0.5 : Binary64) + 1.0 + 0.3 + 0.1 = 1.9000000000000001
    ∧ (1.0 : Binary64) + 1.9000000000000001 = 2.9000000000000004 := by
  decide

/-- C3, amended: for every parameter vector with amplitude (`params[3]`) equal to 0 and every
`r`, `mu`, `z`, `evaluate` returns `bias^2 * zfactor * broadband`; the calls it makes are the
five `setDistortion` calls and the broadband queries only, so the fiducial template is not
queried at all, the no-wiggle template is queried only by the broadband term, at `(r, mu)`
(hence not at the scaled radius `r * scale` unless `r * scale = r`), and the value is the same
for any other fiducial template and any other scale. -/
theorem C3_zero_amplitude_skip (pow : K → K → K) (w : World K)
    (r mu z alpha beta bb scale xio a0 a1 a2 : K) :
    (evaluate pow w r mu z [alpha, beta, bb, 0, scale, xio, a0, a1, a2]).map Prod.fst =
        some ((bb / (1 + beta)) ^ 2 * pow ((1 + z) / (1 + w.model.zref)) alpha *
          specBroadband w.model beta r mu xio a0 a1 a2)
    ∧ (evaluate pow w r mu z [alpha, beta, bb, 0, scale, xio, a0, a1, a2]).map
        (fun p => p.2.trace) =
          some (w.trace ++ (distortionCalls beta ++ broadbandCalls r mu xio a0 a1 a2))
    ∧ (∀ r' mu', Call.atMu .fid r' mu' ∉
        distortionCalls beta ++ broadbandCalls r mu xio a0 a1 a2)
    ∧ (∀ r' mu', Call.atMu .nw r' mu' ∈
        distortionCalls beta ++ broadbandCalls r mu xio a0 a1 a2 → r' = r ∧ mu' = mu)
    ∧ (r * scale ≠ r → ∀ mu', Call.atMu .nw (r * scale) mu' ∉
        distortionCalls beta ++ broadbandCalls r mu xio a0 a1 a2)
    ∧ (∀ (fid' : RsdCorrelationFunction K) (scale' : K),
        (evaluate pow ⟨{ w.model with fid := fid' }, w.trace⟩ r mu z
          [alpha, beta, bb, 0, scale', xio, a0, a1, a2]).map Prod.fst =
        (evaluate pow w r mu z [alpha, beta, bb, 0, scale, xio, a0, a1, a2]).map Prod.fst) := by
  have hnw : ∀ r' mu', Call.atMu .nw r' mu' ∈
      distortionCalls beta ++ broadbandCalls r mu xio a0 a1 a2 → r' = r ∧ mu' = mu := by
    intro r' mu' h
    simp only [distortionCalls, broadbandCalls, List.mem_append, List.mem_cons,
      List.mem_singleton, List.not_mem_nil, or_false, reduceCtorEq, false_or] at h
    rcases h with ((h | h) | h) | h
    · split_ifs at h <;> simp at h
    · split_ifs at h <;> simp at h
      exact h
    · split_ifs at h <;> simp at h
    · split_ifs at h <;> simp at h
  refine ⟨?_, ?_, ?_, hnw, ?_, ?_⟩
  · rw [evaluate_eq]
    simp [specPeak, pow_two]
  · rw [evaluate_eq]
    simp [peakCalls]
  · intro r' mu' h
    simp only [distortionCalls, broadbandCalls, List.mem_append, List.mem_cons,
      List.mem_singleton, List.not_mem_nil, or_false, reduceCtorEq, false_or] at h
    rcases h with ((h | h) | h) | h <;> split_ifs at h <;> simp at h
  · intro hne mu' h
    exact hne (hnw _ _ h).1
  · intro fid' scale'
    rw [evaluate_eq, evaluate_eq]
    simp [specPeak, specBroadband]

/-- C3 amended, at a concrete input: the stub model at `r = 7` with `scale = 2`, so that the
scaled radius 14 differs from 7. -/
theorem C3_zero_amplitude_skip_witness :
    (7 * 2 : ℚ) ≠ 7 ∧
    (evaluate powInt ⟨stubModel 0, []⟩ 7 (1/2) 0 [1, 0, 1, 0, 2, 1, 0, 1, 1]).map
        (fun p => p.2.trace) =
      some ([] ++ (distortionCalls 0 ++ broadbandCalls 7 (1/2) 1 0 1 1))
    ∧ ∀ mu', Call.atMu .nw (7 * 2 : ℚ) mu' ∉
        distortionCalls 0 ++ broadbandCalls 7 (1/2) 1 0 1 1 :=
  ⟨by norm_num,
    (C3_zero_amplitude_skip powInt ⟨stubModel 0, []⟩ 7 (1/2) 0 1 0 1 2 1 0 1 1).2.1,
    (C3_zero_amplitude_skip powInt ⟨stubModel 0, []⟩ 7 (1/2) 0 1 0 1 2 1 0 1 1).2.2.2.2.1
      (by norm_num)⟩

/-- C3 as stated fails at `scale = 1`: with amplitude 0, `a0 = 0`, `r = 7` and `scale = 1`
the calls of `evaluate` are the five `setDistortion` calls and four broadband queries, and the
broadband term queries the no-wiggle template at `(r, mu)`, which is the scaled radius
`r * scale = 7 * 1`: the no-wiggle template is queried at the scaled radius. -/
theorem C3_scale_one_counterexample :
    (evaluate powInt ⟨stubModel 0, []⟩ 7 (1/2) 0 [1, 0, 1, 0, 1, 1, 0, 1, 1]).map
        (fun p => p.2.trace) =
      some [Call.setDistortion .fid 0, Call.setDistortion .nw 0, Call.setDistortion .bbc 0,
        Call.setDistortion .bb1 0, Call.setDistortion .bb2 0,
        Call.atMu .bbc 7 (1/2), Call.atMu .nw 7 (1/2), Call.atMu .bb1 7 (1/2),
        Call.atMu .bb2 7 (1/2)]
    ∧ Call.atMu .nw ((7 : ℚ) * 1) (1/2) ∈
      [Call.setDistortion .fid 0, Call.setDistortion .nw 0, Call.setDistortion .bbc 0,
        Call.setDistortion .bb1 0, Call.setDistortion .bb2 0,
        Call.atMu .bbc 7 (1/2), Call.atMu .nw 7 (1/2), Call.atMu .bb1 7 (1/2),
        Call.atMu .bb2 7 (1/2)] := by
  refine ⟨?_, ?_⟩
  · rw [evaluate_eq]
    norm_num [distortionCalls, peakCalls, broadbandCalls]
  · simp

/-- C5, amended: for every reference redshift `zref ≠ -1` and every exponent `alpha`, when
`evaluate` is called with `z = zref` the redshift factor `pow ((1+z)/(1+zref)) alpha` equals
exactly 1, given that `pow 1 a = 1` for every `a`, as `std::pow` guarantees; so the value of
`evaluate` at `z = zref` is `bias^2 * (peak + broadband)`, in which `alpha` does not occur. -/
theorem C5_zfactor_at_zref (pow : K → K → K) (hpow : ∀ a, pow 1 a = 1) (w : World K)
    (hzref : w.model.zref ≠ -1) (r mu alpha beta bb ampl scale xio a0 a1 a2 : K) :
    pow ((1 + w.model.zref) / (1 + w.model.zref)) alpha = 1
    ∧ (evaluate pow w r mu w.model.zref
        [alpha, beta, bb, ampl, scale, xio, a0, a1, a2]).map Prod.fst =
      some ((bb / (1 + beta)) ^ 2 *
        (specPeak w.model beta r mu ampl scale
          + specBroadband w.model beta r mu xio a0 a1 a2)) := by
  have hne : 1 + w.model.zref ≠ 0 := by
    intro h
    exact hzref (by linear_combination h)
  have hz : pow ((1 + w.model.zref) / (1 + w.model.zref)) alpha = 1 := by
    rw [div_self hne, hpow]
  refine ⟨hz, ?_⟩
  rw [evaluate_eq]
  simp only [Option.map_some', hz, pow_two, mul_one]

/-- C5 amended, at a concrete input: the stub model with `zref = 1/2` and `alpha = 3`:
`bias = 1`, `peak = 1`, `broadband = 1.9`. -/
theorem C5_zfactor_at_zref_witness :
    (∀ a, powInt 1 a = 1) ∧ (stubModel (1/2 : ℚ)).zref ≠ -1 ∧
    (evaluate powInt ⟨stubModel (1/2), []⟩ 7 (1/3) (1/2) [3, 0, 1, 1, 1, 1, 0, 1, 1]).map
      Prod.fst = some 2.9 :=
  ⟨powInt_one, by norm_num [stubModel],
    ((C5_zfactor_at_zref powInt powInt_one ⟨stubModel (1/2), []⟩ (by norm_num [stubModel])
      7 (1/3) 3 0 1 1 1 1 0 1 1).2).trans
      (by norm_num [stubModel, stubTemplate, specPeak, specBroadband])⟩

/-- C5 as stated fails at `zref = -1`: there the quotient `(1+z)/(1+zref)` at `z = zref` is
`0/0`, which is 0 in the field (and not a number in IEEE arithmetic), not 1. With the stub
model, `alpha = 1` and the other parameters of the concrete scenario, the redshift factor is
`powInt 0 1 = 0` and `evaluate` returns 0, while `bias^2 * (peak + broadband)` is 2.9, the
value that `evaluate` returns at `alpha = 0`. -/
theorem C5_zref_minus_one_counterexample :
    (∀ a, powInt 1 a = 1)
    ∧ powInt ((1 + (-1)) / (1 + (-1))) 1 ≠ 1
    ∧ (evaluate powInt ⟨stubModel (-1), []⟩ 7 (1/3) (-1) [1, 0, 1, 1, 1, 1, 0, 1, 1]).map
        Prod.fst = some 0
    ∧ (evaluate powInt ⟨stubModel (-1), []⟩ 7 (1/3) (-1) [0, 0, 1, 1, 1, 1, 0, 1, 1]).map
        Prod.fst = some 2.9
    ∧ (evaluate powInt ⟨stubModel (-1), []⟩ 7 (1/3) (-1) [1, 0, 1, 1, 1, 1, 0, 1, 1]).map
        Prod.fst ≠
      some (((1 : ℚ) / (1 + 0)) ^ 2 *
        (specPeak (stubModel (-1)) 0 7 (1/3) 1 1
          + specBroadband (stubModel (-1)) 0 7 (1/3) 1 0 1 1)) := by
  refine ⟨powInt_one, ?_, ?_, ?_, ?_⟩
  · norm_num [powInt]
  · rw [evaluate_eq]
    norm_num [stubModel, stubTemplate, specPeak, specBroadband, powInt]
  · rw [evaluate_eq]
    norm_num [stubModel, stubTemplate, specPeak, specBroadband, powInt]
  · rw [evaluate_eq]
    norm_num [stubModel, stubTemplate, specPeak, specBroadband, powInt]

/-- C6, amended: in exact arithmetic, with amplitude 0 and fixed `r`, `mu`, `z`, `alpha`,
`beta`, `combined_bias`, write `B = bias^2 * zfactor`. With `a0`, `a1`, `a2` held at 0 the
value of `evaluate` is the affine function `B*nw(r, mu) + xio * (B*bbc(r, mu))` of `xio`, whose constant term comes from
the factor `1 + a0 = 1`; likewise it is affine in `a1` with `xio`, `a0`, `a2` held at 0 and
affine in `a2` with `xio`, `a0`, `a1` held at 0. With `a0` held at -1 instead (the others at 0)
it is the linear function `xio * (B*bbc(r, mu))` of `xio`, and likewise for `a1` and `a2`. With
`xio`, `a1`, `a2` held at 0 it is the function `(1 + a0) * (B*nw(r, mu))` of `a0`, affine in
`a0`. -/
theorem C6_broadband_affine (pow : K → K → K) (w : World K)
    (r mu z alpha beta bb scale : K) :
    let B := (bb / (1 + beta)) ^ 2 * pow ((1 + z) / (1 + w.model.zref)) alpha
    (∀ xio, (evaluate pow w r mu z [alpha, beta, bb, 0, scale, xio, 0, 0, 0]).map Prod.fst =
        some (B * w.model.nw.atMu beta r mu + xio * (B * w.model.bbc.atMu beta r mu)))
    ∧ (∀ a1, (evaluate pow w r mu z [alpha, beta, bb, 0, scale, 0, 0, a1, 0]).map Prod.fst =
        some (B * w.model.nw.atMu beta r mu + a1 * (B * w.model.bb1.atMu beta r mu)))
    ∧ (∀ a2, (evaluate pow w r mu z [alpha, beta, bb, 0, scale, 0, 0, 0, a2]).map Prod.fst =
        some (B * w.model.nw.atMu beta r mu + a2 * (B * w.model.bb2.atMu beta r mu)))
    ∧ (∀ xio, (evaluate pow w r mu z [alpha, beta, bb, 0, scale, xio, -1, 0, 0]).map Prod.fst =
        some (xio * (B * w.model.bbc.atMu beta r mu)))
    ∧ (∀ a1, (evaluate pow w r mu z [alpha, beta, bb, 0, scale, 0, -1, a1, 0]).map Prod.fst =
        some (a1 * (B * w.model.bb1.atMu beta r mu)))
    ∧ (∀ a2, (evaluate pow w r mu z [alpha, beta, bb, 0, scale, 0, -1, 0, a2]).map Prod.fst =
        some (a2 * (B * w.model.bb2.atMu beta r mu)))
    ∧ (∀ a0, (evaluate pow w r mu z [alpha, beta, bb, 0, scale, 0, a0, 0, 0]).map Prod.fst =
        some ((1 + a0) * (B * w.model.nw.atMu beta r mu))) := by
  intro B
  refine ⟨?_, ?_, ?_, ?_, ?_, ?_, ?_⟩
  · intro xio
    rw [evaluate_eq, specPeak_eq, specBroadband_eq]
    simp only [Option.map_some', B]
    congr 1
    ring
  · intro a1
    rw [evaluate_eq, specPeak_eq, specBroadband_eq]
    simp only [Option.map_some', B]
    congr 1
    ring
  · intro a2
    rw [evaluate_eq, specPeak_eq, specBroadband_eq]
    simp only [Option.map_some', B]
    congr 1
    ring
  · intro xio
    rw [evaluate_eq, specPeak_eq, specBroadband_eq]
    simp only [Option.map_some', B]
    congr 1
    ring
  · intro a1
    rw [evaluate_eq, specPeak_eq, specBroadband_eq]
    simp only [Option.map_some', B]
    congr 1
    ring
  · intro a2
    rw [evaluate_eq, specPeak_eq, specBroadband_eq]
    simp only [Option.map_some', B]
    congr 1
    ring
  · intro a0
    rw [evaluate_eq, specPeak_eq, specBroadband_eq]
    simp only [Option.map_some', B]
    congr 1
    ring

/-- C6 as stated fails: with `a0`, `a1`, `a2` held at 0 the no-wiggle piece `(1+a0)*nw(r, mu)`
is present, so the value is not a linear function of `xio`. With the stub model
(`bias = 1`, `zfactor = 1`, `nw = 1.0`, `bbc = 0.5`) the value at `xio = 1` is 1.5 and the
value at `xio = 2 = 2*1 = 1+1` is 2, which is neither `2 * 1.5` nor `1.5 + 1.5`. -/
theorem C6_linear_in_xio_counterexample :
    (evaluate powInt ⟨stubModel 0, []⟩ 7 (1/2) 0 [0, 0, 1, 0, 1, 1, 0, 0, 0]).map Prod.fst =
      some 1.5
    ∧ (evaluate powInt ⟨stubModel 0, []⟩ 7 (1/2) 0 [0, 0, 1, 0, 1, 2 * 1, 0, 0, 0]).map
        Prod.fst = some 2
    ∧ (evaluate powInt ⟨stubModel 0, []⟩ 7 (1/2) 0 [0, 0, 1, 0, 1, 1 + 1, 0, 0, 0]).map
        Prod.fst = some 2
    ∧ (2 : ℚ) ≠ 2 * 1.5 ∧ (2 : ℚ) ≠ 1.5 + 1.5 := by
  refine ⟨?_, ?_, ?_, by norm_num, by norm_num⟩
  · rw [evaluate_eq]
    norm_num [stubModel, stubTemplate, specPeak, specBroadband, powInt]
  · rw [evaluate_eq]
    norm_num [stubModel, stubTemplate, specPeak, specBroadband, powInt]
  · rw [evaluate_eq]
    norm_num [stubModel, stubTemplate, specPeak, specBroadband, powInt]

/-- C7: for every parameter vector, `r`, `z`, angle cosine `mu` and multipole, if each of the
five templates returns the same value for its angle-based query at distortion `beta` as for
its multipole-based query, at each radius the evaluator uses (`r*scale` for fiducial and
no-wiggle in the peak term; `r` for broadband-c, no-wiggle, broadband-1, broadband-2), then
the multipole-based `evaluate` returns the same value as the angle-based `evaluate`. -/
theorem C7_multipole_path_parity (pow : K → K → K) (w : World K) (r mu : K)
    (multipole : Multipole) (z alpha beta bb ampl scale xio a0 a1 a2 : K)
    (hfid : w.model.fid.atMu beta (r * scale) mu =
      w.model.fid.atMultipole w.model.fid.distortion (r * scale) multipole)
    (hnwPeak : w.model.nw.atMu beta (r * scale) mu =
      w.model.nw.atMultipole w.model.nw.distortion (r * scale) multipole)
    (hbbc : w.model.bbc.atMu beta r mu =
      w.model.bbc.atMultipole w.model.bbc.distortion r multipole)
    (hnw : w.model.nw.atMu beta r mu =
      w.model.nw.atMultipole w.model.nw.distortion r multipole)
    (hbb1 : w.model.bb1.atMu beta r mu =
      w.model.bb1.atMultipole w.model.bb1.distortion r multipole)
    (hbb2 : w.model.bb2.atMu beta r mu =
      w.model.bb2.atMultipole w.model.bb2.distortion r multipole) :
    (evaluateMultipole pow w r multipole z
        [alpha, beta, bb, ampl, scale, xio, a0, a1, a2]).map Prod.fst =
      (evaluate pow w r mu z [alpha, beta, bb, ampl, scale, xio, a0, a1, a2]).map
        Prod.fst := by
  rw [evaluateMultipole_eq, evaluate_eq]
  simp only [Option.map_some', specPeak, specBroadband, specPeakMultipole,
    specBroadbandMultipole, hfid, hnwPeak, hbbc, hnw, hbb1, hbb2]

/-- C7, at a concrete input: the stub model, whose templates return the same constant for
both kinds of query, at the quadrupole; both overloads return 46.4. -/
theorem C7_multipole_path_parity_witness :
    (evaluateMultipole powInt ⟨stubModel 0, []⟩ 7 Multipole.Quadrupole 1
        [2, 1/2, 3, 1, 1, 1, 0, 1, 1]).map Prod.fst =
      (evaluate powInt ⟨stubModel 0, []⟩ 7 (1/2) 1 [2, 1/2, 3, 1, 1, 1, 0, 1, 1]).map Prod.fst
    ∧ (evaluateMultipole powInt ⟨stubModel 0, []⟩ 7 Multipole.Quadrupole 1
        [2, 1/2, 3, 1, 1, 1, 0, 1, 1]).map Prod.fst = some 46.4 :=
  ⟨C7_multipole_path_parity powInt ⟨stubModel 0, []⟩ 7 (1/2) Multipole.Quadrupole 1
      2 (1/2) 3 1 1 1 0 1 1 rfl rfl rfl rfl rfl rfl,
    (C7_multipole_path_parity powInt ⟨stubModel 0, []⟩ 7 (1/2) Multipole.Quadrupole 1
      2 (1/2) 3 1 1 1 0 1 1 rfl rfl rfl rfl rfl rfl).trans
      (by rw [evaluate_eq]; norm_num [stubModel, stubTemplate, specPeak, specBroadband, powInt])⟩

/-- C8: for every `r`, `mu`, `z` and parameter vector with amplitude not 0, the calls that
`evaluate` makes are the five `setDistortion` calls, then the queries of the fiducial and the
no-wiggle template for the peak term at exactly `(r*scale, mu)`, then the broadband queries,
each of which is a query of broadband-c, no-wiggle, broadband-1 or broadband-2 at exactly
`(r, mu)`; the angular argument of every query is `mu`. -/
theorem C8_scale_acts_on_peak_radius (pow : K → K → K) (w : World K)
    (r mu z alpha beta bb ampl scale xio a0 a1 a2 : K) (hampl : ampl ≠ 0) :
    (evaluate pow w r mu z [alpha, beta, bb, ampl, scale, xio, a0, a1, a2]).map
        (fun p => p.2.trace) =
      some (w.trace ++ (distortionCalls beta
        ++ [Call.atMu .fid (r * scale) mu, Call.atMu .nw (r * scale) mu]
        ++ broadbandCalls r mu xio a0 a1 a2))
    ∧ (∀ c ∈ broadbandCalls r mu xio a0 a1 a2,
        c = Call.atMu .bbc r mu ∨ c = Call.atMu .nw r mu ∨ c = Call.atMu .bb1 r mu
          ∨ c = Call.atMu .bb2 r mu)
    ∧ (∀ t r' mu', Call.atMu t r' mu' ∈ distortionCalls beta
        ++ [Call.atMu .fid (r * scale) mu, Call.atMu .nw (r * scale) mu]
        ++ broadbandCalls r mu xio a0 a1 a2 → mu' = mu) := by
  have hb : ∀ c ∈ broadbandCalls r mu xio a0 a1 a2,
      c = Call.atMu .bbc r mu ∨ c = Call.atMu .nw r mu ∨ c = Call.atMu .bb1 r mu
        ∨ c = Call.atMu .bb2 r mu := by
    intro c h
    simp only [broadbandCalls, List.mem_append] at h
    rcases h with ((h | h) | h) | h <;> split_ifs at h <;> simp at h <;> simp [h]
  refine ⟨?_, hb, ?_⟩
  · rw [evaluate_eq]
    simp [peakCalls, hampl]
  · intro t r' mu' h
    simp only [List.mem_append] at h
    rcases h with (h | h) | h
    · simp [distortionCalls] at h
    · simp at h
      rcases h with h | h <;> exact h.2.2
    · rcases hb _ h with h | h | h | h <;> simp at h <;> exact h.2.2

/-- C8, at a concrete input: the stub model at `r = 7`, `mu = 1/2` with `scale = 2`: the peak
queries are at radius 14 and the broadband queries at radius 7. -/
theorem C8_scale_acts_on_peak_radius_witness :
    (1 : ℚ) ≠ 0 ∧
    (evaluate powInt ⟨stubModel 0, []⟩ 7 (1/2) 0 [1, 0, 1, 1, 2, 1, 0, 1, 1]).map
        (fun p => p.2.trace) =
      some [Call.setDistortion .fid 0, Call.setDistortion .nw 0, Call.setDistortion .bbc 0,
        Call.setDistortion .bb1 0, Call.setDistortion .bb2 0,
        Call.atMu .fid 14 (1/2), Call.atMu .nw 14 (1/2),
        Call.atMu .bbc 7 (1/2), Call.atMu .nw 7 (1/2), Call.atMu .bb1 7 (1/2),
        Call.atMu .bb2 7 (1/2)] :=
  ⟨by norm_num,
    (C8_scale_acts_on_peak_radius powInt ⟨stubModel 0, []⟩ 7 (1/2) 0 1 0 1 1 2 1 0 1 1
      (by norm_num)).1.trans (by norm_num [distortionCalls, broadbandCalls])⟩

/-- C9: for every choice of constructor arguments, the constructor registers exactly 9
parameters, in the order alpha, beta, (1+beta)*bias, BAO amplitude, BAO scale, BBand xio,
BBand a0, BBand a1, BBand a2, with BAO amplitude and BAO scale taking the default values
`initialAmp` and `initialScale`; a model `m` that the constructor completes carries exactly
these parameters; and for every assignment `v` of values to the parameter names, both
`evaluate` overloads, given the vector of the values in the registered order, use the value
of alpha as the exponent, of beta as the distortion, of (1+beta)*bias as the combined bias,
of BAO amplitude as the amplitude, of BAO scale as the scale and of BBand xio, a0, a1, a2 as
the four broadband coefficients. -/
theorem C9_parameter_schema_order {I F : Type}
    (createInterpolator : String → String → Option I) (createFunctionPtr : I → F)
    (newRsd : F → F → F → RsdCorrelationFunction K)
    (modelrootName fiducialName nowigglesName broadbandName : String)
    (zref initialAmp initialScale : K)
    (fixAlpha fixBeta fixBias fixBao fixScale noBBand : Bool) (m : BaoCorrelationModel K)
    (hm : BaoCorrelationModel.new createInterpolator createFunctionPtr newRsd modelrootName
      fiducialName nowigglesName broadbandName zref initialAmp initialScale
      fixAlpha fixBeta fixBias fixBao fixScale noBBand = some m) :
    (BaoCorrelationModel.defineParameters initialAmp initialScale
        fixAlpha fixBeta fixBias fixBao fixScale noBBand).parameters.map Parameter.name =
      ["alpha", "beta", "(1+beta)*bias", "BAO amplitude", "BAO scale", "BBand xio",
        "BBand a0", "BBand a1", "BBand a2"]
    ∧ m.toAbsCorrelationModel = BaoCorrelationModel.defineParameters initialAmp initialScale
        fixAlpha fixBeta fixBias fixBao fixScale noBBand
    ∧ m.parameters.length = 9
    ∧ m.parameters.map Parameter.name =
      ["alpha", "beta", "(1+beta)*bias", "BAO amplitude", "BAO scale", "BBand xio",
        "BBand a0", "BBand a1", "BBand a2"]
    ∧ m.parameters.map Parameter.value =
      [3.8, 1.0, -0.34, initialAmp, initialScale, 0, -2.5, -1.8, 0]
    ∧ (∀ (pow : K → K → K) (trace : List (Call K)) (r mu z : K) (v : String → K),
        evaluate pow ⟨m, trace⟩ r mu z (m.parameters.map fun p => v p.name) =
          some ((v "(1+beta)*bias" / (1 + v "beta")) ^ 2
              * pow ((1 + z) / (1 + m.zref)) (v "alpha")
              * (specPeak m (v "beta") r mu (v "BAO amplitude") (v "BAO scale")
                + specBroadband m (v "beta") r mu (v "BBand xio") (v "BBand a0")
                    (v "BBand a1") (v "BBand a2")),
            { model := m.withDistortion (v "beta")
              trace := trace ++ distortionCalls (v "beta")
                ++ peakCalls r mu (v "BAO amplitude") (v "BAO scale")
                ++ broadbandCalls r mu (v "BBand xio") (v "BBand a0") (v "BBand a1")
                    (v "BBand a2") }))
    ∧ (∀ (pow : K → K → K) (trace : List (Call K)) (r : K) (multipole : Multipole) (z : K)
        (v : String → K),
        evaluateMultipole pow ⟨m, trace⟩ r multipole z (m.parameters.map fun p => v p.name) =
          some ((v "(1+beta)*bias" / (1 + v "beta")) ^ 2
              * pow ((1 + z) / (1 + m.zref)) (v "alpha")
              * (specPeakMultipole m r multipole (v "BAO amplitude") (v "BAO scale")
                + specBroadbandMultipole m r multipole (v "BBand xio") (v "BBand a0")
                    (v "BBand a1") (v "BBand a2")),
            { model := m
              trace := trace ++ multipoleCalls r multipole (v "BAO amplitude")
                (v "BAO scale") (v "BBand xio") (v "BBand a0") (v "BBand a1")
                (v "BBand a2") })) := by
  have hbase := new_toAbsCorrelationModel createInterpolator createFunctionPtr newRsd
    modelrootName fiducialName nowigglesName broadbandName zref initialAmp initialScale
    fixAlpha fixBeta fixBias fixBao fixScale noBBand m hm
  have hpar : m.parameters = (BaoCorrelationModel.defineParameters initialAmp initialScale
      fixAlpha fixBeta fixBias fixBao fixScale noBBand).parameters := by rw [hbase]
  refine ⟨by simp [defineParameters_parameters], hbase, ?_, ?_, ?_, ?_, ?_⟩
  · simp [hpar, defineParameters_parameters]
  · simp [hpar, defineParameters_parameters]
  · simp [hpar, defineParameters_parameters]
  · intro pow trace r mu z v
    rw [hpar, defineParameters_parameters]
    simp only [List.map_cons, List.map_nil]
    rw [evaluate_eq, pow_two]
  · intro pow trace r multipole z v
    rw [hpar, defineParameters_parameters]
    simp only [List.map_cons, List.map_nil]
    rw [evaluateMultipole_eq, pow_two]

/-- C9, at a concrete input: the constructor completes with `exampleModel`, which carries
the nine parameters in the registered order. -/
theorem C9_parameter_schema_order_witness :
    BaoCorrelationModel.new (fun _ _ => some (1 : ℚ)) id (fun a _ _ => stubTemplate a)
      "models" "fid" "nw" "bb" (1/2) 1 1 true false false false true false = some exampleModel
    ∧ exampleModel.parameters.map Parameter.name =
      ["alpha", "beta", "(1+beta)*bias", "BAO amplitude", "BAO scale", "BBand xio",
        "BBand a0", "BBand a1", "BBand a2"] :=
  ⟨rfl, (C9_parameter_schema_order (fun _ _ => some (1 : ℚ)) id (fun a _ _ => stubTemplate a)
      "models" "fid" "nw" "bb" (1/2) 1 1 true false false false true false exampleModel
      rfl).2.2.2.1⟩

end properties

/-! ## Properties of the parameter schema -/

section flags

variable {K : Type} [Field K]

/-- C10: for every combination of the six booleans, the registered parameters are fixed
exactly as follows: alpha iff `fixAlpha`, beta iff `fixBeta`, (1+beta)*bias iff `fixBias`, BAO
amplitude iff `fixBao`, BAO scale iff `fixBao` or `fixScale`, and each of BBand xio, a0, a1, a2
iff `noBBand`; a model `m` that the constructor completes carries exactly these flags. -/
theorem C10_fixed_flags {I F : Type}
    (createInterpolator : String → String → Option I) (createFunctionPtr : I → F)
    (newRsd : F → F → F → RsdCorrelationFunction K)
    (modelrootName fiducialName nowigglesName broadbandName : String)
    (zref initialAmp initialScale : K)
    (fixAlpha fixBeta fixBias fixBao fixScale noBBand : Bool) (m : BaoCorrelationModel K)
    (hm : BaoCorrelationModel.new createInterpolator createFunctionPtr newRsd modelrootName
      fiducialName nowigglesName broadbandName zref initialAmp initialScale
      fixAlpha fixBeta fixBias fixBao fixScale noBBand = some m) :
    (BaoCorrelationModel.defineParameters initialAmp initialScale
        fixAlpha fixBeta fixBias fixBao fixScale noBBand).parameters.map
        (fun p => (p.name, p.fixed)) =
      [("alpha", fixAlpha), ("beta", fixBeta), ("(1+beta)*bias", fixBias),
        ("BAO amplitude", fixBao), ("BAO scale", fixBao || fixScale),
        ("BBand xio", noBBand), ("BBand a0", noBBand), ("BBand a1", noBBand),
        ("BBand a2", noBBand)]
    ∧ m.parameters.map (fun p => (p.name, p.fixed)) =
      [("alpha", fixAlpha), ("beta", fixBeta), ("(1+beta)*bias", fixBias),
        ("BAO amplitude", fixBao), ("BAO scale", fixBao || fixScale),
        ("BBand xio", noBBand), ("BBand a0", noBBand), ("BBand a1", noBBand),
        ("BBand a2", noBBand)]
    ∧ (∀ p ∈ m.parameters, p.name = "BAO amplitude" → (p.fixed = true ↔ fixBao = true))
    ∧ (∀ p ∈ m.parameters, p.name = "BAO scale" →
        (p.fixed = true ↔ (fixBao = true ∨ fixScale = true))) := by
  have hbase := new_toAbsCorrelationModel createInterpolator createFunctionPtr newRsd
    modelrootName fiducialName nowigglesName broadbandName zref initialAmp initialScale
    fixAlpha fixBeta fixBias fixBao fixScale noBBand m hm
  have hpar : m.parameters = (BaoCorrelationModel.defineParameters initialAmp initialScale
      fixAlpha fixBeta fixBias fixBao fixScale noBBand).parameters := by rw [hbase]
  refine ⟨by simp [defineParameters_parameters], ?_, ?_, ?_⟩
  · simp [hpar, defineParameters_parameters]
  · intro p hp hname
    rw [hpar, defineParameters_parameters] at hp
    simp only [List.mem_cons, List.mem_singleton, List.not_mem_nil, or_false] at hp
    rcases hp with h | h | h | h | h | h | h | h | h <;> subst h <;>
      first
        | rfl
        | (exfalso; simp at hname)
  · intro p hp hname
    rw [hpar, defineParameters_parameters] at hp
    simp only [List.mem_cons, List.mem_singleton, List.not_mem_nil, or_false] at hp
    rcases hp with h | h | h | h | h | h | h | h | h <;> subst h <;>
      first
        | exact Bool.or_eq_true_iff
        | (exfalso; simp at hname)

/-- C10, at a concrete input: `exampleModel`, built with `fixAlpha` and `fixScale` set: alpha
and BAO scale are fixed, BAO amplitude and the other parameters are free. -/
theorem C10_fixed_flags_witness :
    BaoCorrelationModel.new (fun _ _ => some (1 : ℚ)) id (fun a _ _ => stubTemplate a)
      "models" "fid" "nw" "bb" (1/2) 1 1 true false false false true false = some exampleModel
    ∧ exampleModel.parameters.map (fun p => (p.name, p.fixed)) =
      [("alpha", true), ("beta", false), ("(1+beta)*bias", false),
        ("BAO amplitude", false), ("BAO scale", true),
        ("BBand xio", false), ("BBand a0", false), ("BBand a1", false),
        ("BBand a2", false)] :=
  ⟨rfl, (C10_fixed_flags (fun _ _ => some (1 : ℚ)) id (fun a _ _ => stubTemplate a)
      "models" "fid" "nw" "bb" (1/2) 1 1 true false false false true false exampleModel
      rfl).2.1⟩

end flags

/-! ## Properties of the file names -/

section files

variable {K : Type} [Field K]

/-- C11: for every `modelrootName`, `fiducialName`, `nowigglesName` and `broadbandName`, the
constructor is the sequence of fifteen loads, each with the method `"cspline"`, of the files
`root+fiducialName+"."+o+".dat"` and `root+nowigglesName+"."+o+".dat"` for `o` in 0, 2, 4 and
`root+broadbandName+c+"."+o+".dat"` for `c` in `c`, `1`, `2` and `o` in 0, 2, 4, where `root`
is the root of `modelrootName`: it completes exactly when all fifteen load, and then the five
templates are built as fiducial = (fid.0, fid.2, fid.4), no-wiggle = (nw.0, nw.2, nw.4),
broadband-c = (c.0, c.2, c.4), broadband-1 = (1.0, 1.2, 1.4), broadband-2 = (2.0, 2.2, 2.4). -/
theorem C11_file_naming {I F : Type}
    (createInterpolator : String → String → Option I) (createFunctionPtr : I → F)
    (newRsd : F → F → F → RsdCorrelationFunction K)
    (modelrootName fiducialName nowigglesName broadbandName : String)
    (zref initialAmp initialScale : K)
    (fixAlpha fixBeta fixBias fixBao fixScale noBBand : Bool) :
    BaoCorrelationModel.new createInterpolator createFunctionPtr newRsd modelrootName
      fiducialName nowigglesName broadbandName zref initialAmp initialScale
      fixAlpha fixBeta fixBias fixBao fixScale noBBand =
    (let root := BaoCorrelationModel.root modelrootName
     do
      let fid0 ← createInterpolator
        (root ++ fiducialName ++ "." ++ "0" ++ ".dat") "cspline"
      let fid2 ← createInterpolator
        (root ++ fiducialName ++ "." ++ "2" ++ ".dat") "cspline"
      let fid4 ← createInterpolator
        (root ++ fiducialName ++ "." ++ "4" ++ ".dat") "cspline"
      let nw0 ← createInterpolator
        (root ++ nowigglesName ++ "." ++ "0" ++ ".dat") "cspline"
      let nw2 ← createInterpolator
        (root ++ nowigglesName ++ "." ++ "2" ++ ".dat") "cspline"
      let nw4 ← createInterpolator
        (root ++ nowigglesName ++ "." ++ "4" ++ ".dat") "cspline"
      let bbc0 ← createInterpolator
        (root ++ broadbandName ++ "c" ++ "." ++ "0" ++ ".dat") "cspline"
      let bbc2 ← createInterpolator
        (root ++ broadbandName ++ "c" ++ "." ++ "2" ++ ".dat") "cspline"
      let bbc4 ← createInterpolator
        (root ++ broadbandName ++ "c" ++ "." ++ "4" ++ ".dat") "cspline"
      let bb10 ← createInterpolator
        (root ++ broadbandName ++ "1" ++ "." ++ "0" ++ ".dat") "cspline"
      let bb12 ← createInterpolator
        (root ++ broadbandName ++ "1" ++ "." ++ "2" ++ ".dat") "cspline"
      let bb14 ← createInterpolator
        (root ++ broadbandName ++ "1" ++ "." ++ "4" ++ ".dat") "cspline"
      let bb20 ← createInterpolator
        (root ++ broadbandName ++ "2" ++ "." ++ "0" ++ ".dat") "cspline"
      let bb22 ← createInterpolator
        (root ++ broadbandName ++ "2" ++ "." ++ "2" ++ ".dat") "cspline"
      let bb24 ← createInterpolator
        (root ++ broadbandName ++ "2" ++ "." ++ "4" ++ ".dat") "cspline"
      let f := createFunctionPtr
      pure
        { toAbsCorrelationModel := BaoCorrelationModel.defineParameters initialAmp
            initialScale fixAlpha fixBeta fixBias fixBao fixScale noBBand
          zref := zref
          fid := newRsd (f fid0) (f fid2) (f fid4)
          nw := newRsd (f nw0) (f nw2) (f nw4)
          bbc := newRsd (f bbc0) (f bbc2) (f bbc4)
          bb1 := newRsd (f bb10) (f bb12) (f bb14)
          bb2 := newRsd (f bb20) (f bb22) (f bb24) }) := by
  have hf : ∀ (root name : String) (o : Nat), BaoCorrelationModel.fileName root name o =
      root ++ name ++ "." ++ toString o ++ ".dat" := fun _ _ _ => rfl
  have hb : ∀ (root name : String) (c : Char) (o : Nat),
      BaoCorrelationModel.bbandName root name c o =
        root ++ name ++ String.singleton c ++ "." ++ toString o ++ ".dat" := by
    intro root name c o
    simp only [BaoCorrelationModel.bbandName, push_eq_append]
  have t0 : toString (0 : Nat) = "0" := rfl
  have t2 : toString (2 : Nat) = "2" := rfl
  have t4 : toString (4 : Nat) = "4" := rfl
  have sc : String.singleton 'c' = "c" := rfl
  have s1 : String.singleton '1' = "1" := rfl
  have s2 : String.singleton '2' = "2" := rfl
  unfold BaoCorrelationModel.new
  simp only [hf, hb, t0, t2, t4, sc, s1, s2]
  generalize BaoCorrelationModel.root modelrootName = root
  split
  · rename_i fid0 fid2 fid4 nw0 nw2 nw4 bbc0 bbc2 bbc4 bb10 bb12 bb14 bb20 bb22 bb24
      h0 h1 h2 h3 h4 h5 h6 h7 h8 h9 h10 h11 h12 h13 h14
    rw [Option.map_eq_some'] at h0 h1 h2 h3 h4 h5 h6 h7 h8 h9 h10 h11 h12 h13 h14
    obtain ⟨i0, h0, rfl⟩ := h0
    obtain ⟨i1, h1, rfl⟩ := h1
    obtain ⟨i2, h2, rfl⟩ := h2
    obtain ⟨i3, h3, rfl⟩ := h3
    obtain ⟨i4, h4, rfl⟩ := h4
    obtain ⟨i5, h5, rfl⟩ := h5
    obtain ⟨i6, h6, rfl⟩ := h6
    obtain ⟨i7, h7, rfl⟩ := h7
    obtain ⟨i8, h8, rfl⟩ := h8
    obtain ⟨i9, h9, rfl⟩ := h9
    obtain ⟨i10, h10, rfl⟩ := h10
    obtain ⟨i11, h11, rfl⟩ := h11
    obtain ⟨i12, h12, rfl⟩ := h12
    obtain ⟨i13, h13, rfl⟩ := h13
    obtain ⟨i14, h14, rfl⟩ := h14
    simp only [h0, h1, h2, h3, h4, h5, h6, h7, h8, h9, h10, h11, h12, h13, h14,
      Option.bind_eq_bind, Option.some_bind, Option.pure_def]
  · rename_i hne
    cases h0 : createInterpolator (root ++ fiducialName ++ "." ++ "0" ++ ".dat") "cspline"
    · rfl
    cases h1 : createInterpolator (root ++ fiducialName ++ "." ++ "2" ++ ".dat") "cspline"
    · rfl
    cases h2 : createInterpolator (root ++ fiducialName ++ "." ++ "4" ++ ".dat") "cspline"
    · rfl
    cases h3 : createInterpolator (root ++ nowigglesName ++ "." ++ "0" ++ ".dat") "cspline"
    · rfl
    cases h4 : createInterpolator (root ++ nowigglesName ++ "." ++ "2" ++ ".dat") "cspline"
    · rfl
    cases h5 : createInterpolator (root ++ nowigglesName ++ "." ++ "4" ++ ".dat") "cspline"
    · rfl
    cases h6 : createInterpolator (root ++ broadbandName ++ "c" ++ "." ++ "0" ++ ".dat") "cspline"
    · rfl
    cases h7 : createInterpolator (root ++ broadbandName ++ "c" ++ "." ++ "2" ++ ".dat") "cspline"
    · rfl
    cases h8 : createInterpolator (root ++ broadbandName ++ "c" ++ "." ++ "4" ++ ".dat") "cspline"
    · rfl
    cases h9 : createInterpolator (root ++ broadbandName ++ "1" ++ "." ++ "0" ++ ".dat") "cspline"
    · rfl
    cases h10 : createInterpolator (root ++ broadbandName ++ "1" ++ "." ++ "2" ++ ".dat") "cspline"
    · rfl
    cases h11 : createInterpolator (root ++ broadbandName ++ "1" ++ "." ++ "4" ++ ".dat") "cspline"
    · rfl
    cases h12 : createInterpolator (root ++ broadbandName ++ "2" ++ "." ++ "0" ++ ".dat") "cspline"
    · rfl
    cases h13 : createInterpolator (root ++ broadbandName ++ "2" ++ "." ++ "2" ++ ".dat") "cspline"
    · rfl
    cases h14 : createInterpolator (root ++ broadbandName ++ "2" ++ "." ++ "4" ++ ".dat") "cspline"
    · rfl
    exfalso
    exact hne _ _ _ _ _ _ _ _ _ _ _ _ _ _ _
      (by rw [h0]; rfl) (by rw [h1]; rfl) (by rw [h2]; rfl) (by rw [h3]; rfl)
      (by rw [h4]; rfl) (by rw [h5]; rfl) (by rw [h6]; rfl) (by rw [h7]; rfl)
      (by rw [h8]; rfl) (by rw [h9]; rfl) (by rw [h10]; rfl) (by rw [h11]; rfl)
      (by rw [h12]; rfl) (by rw [h13]; rfl) (by rw [h14]; rfl)

/-- C11, at a concrete input: with a loader that knows exactly the fifteen files
`models/fid.0.dat`, ..., `models/bb2.4.dat`, the constructor completes for the root
`"models"` and the names `"fid"`, `"nw"`, `"bb"`, and does not complete for the broadband name
`"xx"`. -/
theorem C11_file_naming_witness :
    BaoCorrelationModel.new exampleLoader id (fun a _ _ => stubTemplate a)
      "models" "fid" "nw" "bb" (1/2) 1 1 true false false false true false = some exampleModel
    ∧ BaoCorrelationModel.new exampleLoader id (fun a _ _ => stubTemplate a)
      "models" "fid" "nw" "xx" (1/2) 1 1 true false false false true false = none :=
  ⟨(C11_file_naming exampleLoader id (fun a _ _ => stubTemplate a)
      "models" "fid" "nw" "bb" (1/2) 1 1 true false false false true false).trans rfl,
    (C11_file_naming exampleLoader id (fun a _ _ => stubTemplate a)
      "models" "fid" "nw" "xx" (1/2) 1 1 true false false false true false).trans rfl⟩

end files

/-! ## Properties of the state and of the shape of the parameter vector -/

section state

variable {K : Type} [Field K] [DecidableEq K]

/-- C13: for every 9-entry parameter vector and every `r`, `mu`, `z`, the angle-based
`evaluate` returns, and in the state it leaves the distortion of each of the fiducial,
no-wiggle, broadband-c, broadband-1 and broadband-2 templates equals `beta = params[1]`,
whatever the coefficients (a template whose term is skipped included); `zref`, the registered
parameters and the two query functions of every template are unchanged. -/
theorem C13_evaluate_sets_distortion (pow : K → K → K) (w : World K)
    (r mu z alpha beta bb ampl scale xio a0 a1 a2 : K) :
    ∃ v w', evaluate pow w r mu z [alpha, beta, bb, ampl, scale, xio, a0, a1, a2] = some (v, w')
      ∧ w'.model.fid.distortion = beta ∧ w'.model.nw.distortion = beta
      ∧ w'.model.bbc.distortion = beta ∧ w'.model.bb1.distortion = beta
      ∧ w'.model.bb2.distortion = beta
      ∧ w'.model.zref = w.model.zref
      ∧ w'.model.toAbsCorrelationModel = w.model.toAbsCorrelationModel
      ∧ (∀ t, (w'.model.template t).atMu = (w.model.template t).atMu)
      ∧ (∀ t, (w'.model.template t).atMultipole = (w.model.template t).atMultipole) := by
  refine ⟨_, _, evaluate_eq pow w r mu z alpha beta bb ampl scale xio a0 a1 a2,
    rfl, rfl, rfl, rfl, rfl, rfl, rfl, ?_, ?_⟩
  · intro t
    cases t <;> rfl
  · intro t
    cases t <;> rfl

/-- C13, at a concrete input: with amplitude 0, `xio = a1 = a2 = 0` and `a0 = -1` every term
is skipped; `evaluate` returns 0, makes only the five `setDistortion` calls and leaves every
template of the stub model with distortion 3. -/
theorem C13_evaluate_sets_distortion_witness :
    (∃ v w', evaluate powInt ⟨stubModel 0, []⟩ 7 (1/2) 0 [0, 3, 1, 0, 1, 0, -1, 0, 0] =
        some (v, w')
      ∧ w'.model.fid.distortion = 3 ∧ w'.model.nw.distortion = 3
      ∧ w'.model.bbc.distortion = 3 ∧ w'.model.bb1.distortion = 3
      ∧ w'.model.bb2.distortion = 3)
    ∧ (evaluate powInt ⟨stubModel 0, []⟩ 7 (1/2) 0 [0, 3, 1, 0, 1, 0, -1, 0, 0]).map
        (fun p => (p.1, p.2.trace)) = some (0, distortionCalls 3) := by
  refine ⟨?_, ?_⟩
  · obtain ⟨v, w', h, h1, h2, h3, h4, h5, -⟩ :=
      C13_evaluate_sets_distortion powInt ⟨stubModel 0, []⟩ 7 (1/2) 0 0 3 1 0 1 0 (-1) 0 0
    exact ⟨v, w', h, h1, h2, h3, h4, h5⟩
  · rw [evaluate_eq]
    norm_num [specPeak, specBroadband, peakCalls, broadbandCalls]

/-- C14: for every 9-entry parameter vector, `r`, multipole and `z`, the multipole-based
`evaluate` returns and leaves the model, so the distortion of every template and `zref`,
exactly as it was; it makes no `setDistortion` call; run after an angle-based call, it
leaves in every template the distortion `beta0` which that call set; and the value it returns
is the same for any two vectors that differ in `beta` and `combined_bias` only and have the
same `bias = combined_bias/(1+beta)`. -/
theorem C14_multipole_sets_no_distortion (pow : K → K → K) (w : World K) (r : K)
    (multipole : Multipole) (z alpha beta bb ampl scale xio a0 a1 a2 : K) :
    (∃ v w', evaluateMultipole pow w r multipole z
        [alpha, beta, bb, ampl, scale, xio, a0, a1, a2] = some (v, w')
      ∧ w'.model = w.model
      ∧ w'.trace = w.trace ++ multipoleCalls r multipole ampl scale xio a0 a1 a2)
    ∧ (∀ t b, Call.setDistortion t b ∉ multipoleCalls r multipole ampl scale xio a0 a1 a2)
    ∧ (∀ (r0 mu0 z0 alpha0 beta0 bb0 ampl0 scale0 xio0 a00 a10 a20 : K),
        ∃ v0 w1 v1 w2,
          evaluate pow w r0 mu0 z0
            [alpha0, beta0, bb0, ampl0, scale0, xio0, a00, a10, a20] = some (v0, w1)
          ∧ evaluateMultipole pow w1 r multipole z
            [alpha, beta, bb, ampl, scale, xio, a0, a1, a2] = some (v1, w2)
          ∧ w2.model = w1.model
          ∧ w2.model.fid.distortion = beta0 ∧ w2.model.nw.distortion = beta0
          ∧ w2.model.bbc.distortion = beta0 ∧ w2.model.bb1.distortion = beta0
          ∧ w2.model.bb2.distortion = beta0)
    ∧ (∀ beta' bb' : K, bb' / (1 + beta') = bb / (1 + beta) →
        (evaluateMultipole pow w r multipole z
          [alpha, beta', bb', ampl, scale, xio, a0, a1, a2]).map Prod.fst =
        (evaluateMultipole pow w r multipole z
          [alpha, beta, bb, ampl, scale, xio, a0, a1, a2]).map Prod.fst) := by
  refine ⟨⟨_, _, evaluateMultipole_eq pow w r multipole z alpha beta bb ampl scale xio a0 a1 a2,
    rfl, rfl⟩, ?_, ?_, ?_⟩
  · intro t b h
    simp only [multipoleCalls, List.mem_append] at h
    rcases h with (((h | h) | h) | h) | h <;> split_ifs at h <;> simp at h
  · intro r0 mu0 z0 alpha0 beta0 bb0 ampl0 scale0 xio0 a00 a10 a20
    exact ⟨_, _, _, _, evaluate_eq pow w r0 mu0 z0 alpha0 beta0 bb0 ampl0 scale0 xio0 a00 a10 a20,
      evaluateMultipole_eq pow _ r multipole z alpha beta bb ampl scale xio a0 a1 a2,
      rfl, rfl, rfl, rfl, rfl, rfl⟩
  · intro beta' bb' h
    rw [evaluateMultipole_eq, evaluateMultipole_eq]
    simp only [Option.map_some', h]

/-- C14, at a concrete input: `beta = 1, combined_bias = 4` and `beta = 0, combined_bias = 2`
give the same `bias = 2` and the same value. -/
theorem C14_multipole_sets_no_distortion_witness :
    (4 : ℚ) / (1 + 1) = 2 / (1 + 0)
    ∧ (evaluateMultipole powInt ⟨stubModel 0, []⟩ 7 Multipole.Monopole 0
        [0, 1, 4, 1, 1, 1, 0, 1, 1]).map Prod.fst =
      (evaluateMultipole powInt ⟨stubModel 0, []⟩ 7 Multipole.Monopole 0
        [0, 0, 2, 1, 1, 1, 0, 1, 1]).map Prod.fst :=
  ⟨by norm_num,
    (C14_multipole_sets_no_distortion powInt ⟨stubModel 0, []⟩ 7 Multipole.Monopole
      0 0 0 2 1 1 1 0 1 1).2.2.2 1 4 (by norm_num)⟩

/-- C15: for every two model states that differ only in the distortion parameters stored
in the five templates, and every `r`, `mu`, `z` and 9-entry parameter vector, the angle-based
`evaluate` returns the same value from both states; and calling it twice in a row with the
same arguments returns the same value both times. -/
theorem C15_evaluate_ignores_stored_distortion (pow : K → K → K) (w : World K)
    (r mu z alpha beta bb ampl scale xio a0 a1 a2 : K) :
    (∀ (d1 d2 d3 d4 d5 : K) (trace : List (Call K)),
      (evaluate pow
        ⟨{ w.model with
            fid := { w.model.fid with distortion := d1 }
            nw := { w.model.nw with distortion := d2 }
            bbc := { w.model.bbc with distortion := d3 }
            bb1 := { w.model.bb1 with distortion := d4 }
            bb2 := { w.model.bb2 with distortion := d5 } }, trace⟩
        r mu z [alpha, beta, bb, ampl, scale, xio, a0, a1, a2]).map Prod.fst =
      (evaluate pow w r mu z [alpha, beta, bb, ampl, scale, xio, a0, a1, a2]).map Prod.fst)
    ∧ (∃ v w1 w2,
        evaluate pow w r mu z [alpha, beta, bb, ampl, scale, xio, a0, a1, a2] = some (v, w1)
        ∧ evaluate pow w1 r mu z [alpha, beta, bb, ampl, scale, xio, a0, a1, a2] =
          some (v, w2)) := by
  refine ⟨?_, ?_⟩
  · intro d1 d2 d3 d4 d5 trace
    rw [evaluate_eq, evaluate_eq]
    rfl
  · exact ⟨_, _, _, evaluate_eq pow w r mu z alpha beta bb ampl scale xio a0 a1 a2,
      evaluate_eq pow _ r mu z alpha beta bb ampl scale xio a0 a1 a2⟩

/-- C15, at a concrete input: the stub model with the distortions 1, 2, 3, 4, 5 stored in its
templates returns 2.9 for the parameters of the concrete scenario, like the stub model
itself. -/
theorem C15_evaluate_ignores_stored_distortion_witness :
    (evaluate powInt
      ⟨{ stubModel (0 : ℚ) with
          fid := { (stubModel (0 : ℚ)).fid with distortion := 1 }
          nw := { (stubModel (0 : ℚ)).nw with distortion := 2 }
          bbc := { (stubModel (0 : ℚ)).bbc with distortion := 3 }
          bb1 := { (stubModel (0 : ℚ)).bb1 with distortion := 4 }
          bb2 := { (stubModel (0 : ℚ)).bb2 with distortion := 5 } }, []⟩
      7 (1/2) 0 [0, 0, 1, 1, 1, 1, 0, 1, 1]).map Prod.fst = some 2.9 :=
  ((C15_evaluate_ignores_stored_distortion powInt ⟨stubModel 0, []⟩ 7 (1/2) 0
    0 0 1 1 1 1 0 1 1).1 1 2 3 4 5 []).trans
    (by rw [evaluate_eq]; norm_num [stubModel, stubTemplate, specPeak, specBroadband, powInt])

end state

section roots

/-- C16: for every string `modelRoot`, the root used to build file names is `modelRoot` itself
when `modelRoot` is empty or already ends in `'/'`, and `modelRoot` followed by a single `'/'`
otherwise; hence the root is always either empty or `'/'`-terminated, and the root of a root
is that root. -/
theorem C16_root_normalisation (modelRoot : String) :
    ((modelRoot = "" ∨ modelRoot.data.getLast? = some '/') →
      BaoCorrelationModel.root modelRoot = modelRoot)
    ∧ (¬ (modelRoot = "" ∨ modelRoot.data.getLast? = some '/') →
      BaoCorrelationModel.root modelRoot = modelRoot ++ "/")
    ∧ (BaoCorrelationModel.root modelRoot = ""
      ∨ (BaoCorrelationModel.root modelRoot).data.getLast? = some '/')
    ∧ BaoCorrelationModel.root (BaoCorrelationModel.root modelRoot) =
      BaoCorrelationModel.root modelRoot :=
  ⟨root_of_terminated modelRoot, root_of_not_terminated modelRoot, root_terminated modelRoot,
    root_of_terminated _ (root_terminated modelRoot)⟩

/-- C16, at concrete inputs: `"models"` gets a `'/'`, `"models/"` and the empty name are
unchanged. -/
theorem C16_root_normalisation_witness :
    ¬ ("models" = "" ∨ "models".data.getLast? = some '/')
    ∧ BaoCorrelationModel.root "models" = "models/"
    ∧ ("models/" = "" ∨ "models/".data.getLast? = some '/')
    ∧ BaoCorrelationModel.root "models/" = "models/"
    ∧ BaoCorrelationModel.root "" = "" :=
  ⟨by decide, (C16_root_normalisation "models").2.1 (by decide), by decide,
    (C16_root_normalisation "models/").1 (by decide),
    (C16_root_normalisation "").1 (by decide)⟩

end roots

section reductions

variable {K : Type} [Field K] [DecidableEq K]

/-- C17: for every 9-entry parameter vector, zero coefficients included, and every `r`, `mu`,
`z`, the angle-based `evaluate` returns the branch-free value
`bias^2 * zfactor * (ampl*(fid(r*scale, mu) - nw(r*scale, mu)) + xio*bbc(r, mu)
+ (1+a0)*nw(r, mu) + a1*bb1(r, mu) + a2*bb2(r, mu))`, the templates being read at distortion
`beta`; and the multipole-based `evaluate` returns the same combination of the multipole
queries, the templates being read at the distortion they store. -/
theorem C17_skips_are_value_neutral (pow : K → K → K) (w : World K) (r mu : K)
    (multipole : Multipole) (z alpha beta bb ampl scale xio a0 a1 a2 : K) :
    (evaluate pow w r mu z [alpha, beta, bb, ampl, scale, xio, a0, a1, a2]).map Prod.fst =
      some ((bb / (1 + beta)) ^ 2 * pow ((1 + z) / (1 + w.model.zref)) alpha *
        (ampl * (w.model.fid.atMu beta (r * scale) mu - w.model.nw.atMu beta (r * scale) mu)
          + xio * w.model.bbc.atMu beta r mu + (1 + a0) * w.model.nw.atMu beta r mu
          + a1 * w.model.bb1.atMu beta r mu + a2 * w.model.bb2.atMu beta r mu))
    ∧ (evaluateMultipole pow w r multipole z
        [alpha, beta, bb, ampl, scale, xio, a0, a1, a2]).map Prod.fst =
      some ((bb / (1 + beta)) ^ 2 * pow ((1 + z) / (1 + w.model.zref)) alpha *
        (ampl * (w.model.fid.atMultipole w.model.fid.distortion (r * scale) multipole
            - w.model.nw.atMultipole w.model.nw.distortion (r * scale) multipole)
          + xio * w.model.bbc.atMultipole w.model.bbc.distortion r multipole
          + (1 + a0) * w.model.nw.atMultipole w.model.nw.distortion r multipole
          + a1 * w.model.bb1.atMultipole w.model.bb1.distortion r multipole
          + a2 * w.model.bb2.atMultipole w.model.bb2.distortion r multipole)) := by
  refine ⟨?_, ?_⟩
  · rw [evaluate_eq, specPeak_eq, specBroadband_eq]
    simp only [Option.map_some']
    congr 1
    ring
  · rw [evaluateMultipole_eq, specPeakMultipole_eq, specBroadbandMultipole_eq]
    simp only [Option.map_some']
    congr 1
    ring

/-- C17, at a concrete input: with every coefficient zero (`a0 = 0`, so `1 + a0 = 1`) the stub
model returns `bias^2 * zfactor * nw = 1`, as the branch-free formula does. -/
theorem C17_skips_are_value_neutral_witness :
    (evaluate powInt ⟨stubModel 0, []⟩ 7 (1/2) 0 [0, 0, 1, 0, 1, 0, 0, 0, 0]).map Prod.fst =
      some 1 :=
  ((C17_skips_are_value_neutral powInt ⟨stubModel 0, []⟩ 7 (1/2) Multipole.Monopole 0
    0 0 1 0 1 0 0 0 0).1).trans (by norm_num [stubModel, stubTemplate, powInt])

end reductions

end baofit
